import Mathlib

/-!
Shallow embedding of the Fast-FEM structural solver core
(src/beam.cpp, src/fem_system.cpp, src/fem_system.h, src/node.h,
src/beam.h, src/beam_props.h) over exact rational arithmetic.

C++ doubles are modelled by rationals.  The transcendental library
functions the code calls (std::sqrt, std::cos, std::sin) and the
constant M_PI are modelled by an explicit environment of abstract
functions, and Eigen's dense direct solver (fullPivLu().solve) is
modelled by an abstract solver parameter, since both are external
library code, not part of this repository.
-/

namespace FastFEM

/-- Environment of external numeric primitives used by the C++ code:
models of std::sqrt, std::cos, std::sin, the constant M_PI, and the
value Eigen's conservativeResize leaves in newly created
(uninitialized) coefficients. -/
structure Env where
  sqrt : ℚ → ℚ
  cos : ℚ → ℚ
  sin : ℚ → ℚ
  pi : ℚ
  uninit : ℚ

/-- Exact square root on rationals whose numerator and denominator are
perfect squares (used only to instantiate `Env.sqrt` concretely in
witnesses; it agrees with the IEEE sqrt on such inputs). -/
def ratSqrt (q : ℚ) : ℚ :=
  (Nat.sqrt q.num.toNat : ℚ) / (Nat.sqrt q.den : ℚ)

/-- Default concrete environment for witnesses. -/
def env0 : Env :=
  { sqrt := ratSqrt, cos := fun _ => 0, sin := fun _ => 0, pi := 0, uninit := 0 }

/-- Constraint kinds of a node (src/node.h). -/
inductive ConstraintType where
  | Free
  | Fixed
  | FixedPin
  | Slider
deriving DecidableEq, Repr

/-- A node of the structural model (src/node.h): 2D position,
constraint kind and slider angle in degrees. -/
structure Node where
  position : ℚ × ℚ
  constraint_type : ConstraintType
  constraint_angle : ℚ

instance : Inhabited Node :=
  ⟨{ position := (0, 0), constraint_type := ConstraintType.Free, constraint_angle := 0 }⟩

/-- Material catalog entry (src/beam_props.h). -/
structure MaterialProfile where
  name : String
  youngs_modulus : ℚ

instance : Inhabited MaterialProfile := ⟨{ name := "", youngs_modulus := 0 }⟩

/-- Section catalog entry (src/beam_props.h). -/
structure BeamProfile where
  name : String
  area : ℚ
  moment_of_inertia : ℚ
  section_modulus : ℚ

instance : Inhabited BeamProfile :=
  ⟨{ name := "", area := 0, moment_of_inertia := 0, section_modulus := 0 }⟩

/-- Matrices are modelled as total functions on indices; all reads the
program performs stay inside the dimensions it allocated. -/
def Mat : Type := ℕ → ℕ → ℚ

/-- An Eigen VectorXd: a size together with its entries. -/
structure EVec where
  size : ℕ
  entry : ℕ → ℚ

/-- A beam element (src/beam.h). -/
structure Beam where
  nodes : ℕ × ℕ
  k : ℚ
  axial_force : ℚ
  max_moment : ℚ
  is_truss : Bool
  stress : ℚ
  material_idx : ℕ
  shape_idx : ℕ
  k_matrix : Mat

/-- Matrix product with inner dimension n. -/
def matMul (n : ℕ) (A B : Mat) : Mat :=
  fun i j => ∑ m ∈ Finset.range n, A i m * B m j

/-- Matrix transpose. -/
def transposeM (A : Mat) : Mat := fun i j => A j i

/-- Matrix–vector product with dimension n. -/
def mulVec (n : ℕ) (A : Mat) (v : ℕ → ℚ) : ℕ → ℚ :=
  fun i => ∑ m ∈ Finset.range n, A i m * v m

/-- Local (element-axis) 6×6 frame stiffness matrix built from the four
coefficient values, exactly the entries set in beam.cpp lines 47-78;
all unset entries are zero. -/
def kPrime (ea_L ei_L ei_L2 ei_L3 : ℚ) : Mat := fun i j =>
  if i = 0 ∧ j = 0 then ea_L
  else if i = 0 ∧ j = 3 then -ea_L
  else if i = 3 ∧ j = 0 then -ea_L
  else if i = 3 ∧ j = 3 then ea_L
  else if i = 1 ∧ j = 1 then 12 * ei_L3
  else if i = 1 ∧ j = 2 then 6 * ei_L2
  else if i = 1 ∧ j = 4 then -12 * ei_L3
  else if i = 1 ∧ j = 5 then 6 * ei_L2
  else if i = 2 ∧ j = 1 then 6 * ei_L2
  else if i = 2 ∧ j = 2 then 4 * ei_L
  else if i = 2 ∧ j = 4 then -6 * ei_L2
  else if i = 2 ∧ j = 5 then 2 * ei_L
  else if i = 4 ∧ j = 1 then -12 * ei_L3
  else if i = 4 ∧ j = 2 then -6 * ei_L2
  else if i = 4 ∧ j = 4 then 12 * ei_L3
  else if i = 4 ∧ j = 5 then -6 * ei_L2
  else if i = 5 ∧ j = 1 then 6 * ei_L2
  else if i = 5 ∧ j = 2 then 2 * ei_L
  else if i = 5 ∧ j = 4 then -6 * ei_L2
  else if i = 5 ∧ j = 5 then 4 * ei_L
  else 0

/-- The 6×6 block-rotation matrix by direction cosines (c, s): the
matrix T built both in beam.cpp lines 80-94 and in the post-processor,
fem_system.cpp lines 389-401 (identical entry pattern). -/
def Tmat (c s : ℚ) : Mat := fun i j =>
  if i = 0 ∧ j = 0 then c
  else if i = 0 ∧ j = 1 then s
  else if i = 1 ∧ j = 0 then -s
  else if i = 1 ∧ j = 1 then c
  else if i = 2 ∧ j = 2 then 1
  else if i = 3 ∧ j = 3 then c
  else if i = 3 ∧ j = 4 then s
  else if i = 4 ∧ j = 3 then -s
  else if i = 4 ∧ j = 4 then c
  else if i = 5 ∧ j = 5 then 1
  else 0

/-- Global element stiffness: T transposed times k_prime times T
(beam.cpp line 96, with Eigen's left-to-right association). -/
def globalElem (ea_L ei_L ei_L2 ei_L3 c s : ℚ) : Mat :=
  matMul 6 (matMul 6 (transposeM (Tmat c s)) (kPrime ea_L ei_L ei_L2 ei_L3)) (Tmat c s)

/-- Beam::compute_stiffness (beam.cpp lines 3-97): direction cosines
from endpoint coordinates, zero-length guard at 1e-9, truss flag
forcing I to zero, local stiffness and rotation to global axes. -/
def compute_stiffness (env : Env) (node_list : List Node)
    (materials : List MaterialProfile) (shapes : List BeamProfile) (b : Beam) : Beam :=
  let n1 := b.nodes.1
  let n2 := b.nodes.2
  let material := materials.getD b.material_idx default
  let shape := shapes.getD b.shape_idx default
  let E := material.youngs_modulus
  let A := shape.area
  let I := if b.is_truss then 0 else shape.moment_of_inertia
  let dx := (node_list.getD n2 default).position.1 - (node_list.getD n1 default).position.1
  let dy := (node_list.getD n2 default).position.2 - (node_list.getD n1 default).position.2
  let L := env.sqrt (dx * dx + dy * dy)
  if L < 1 / 1000000000 then
    { b with k_matrix := fun _ _ => 0 }
  else
    let c := dx / L
    let s := dy / L
    let EA_over_L := E * A / L
    let EI_over_L := E * I / L
    let EI_over_L2 := EI_over_L / L
    let EI_over_L3 := EI_over_L2 / L
    { b with
      k := shape.area * material.youngs_modulus / L
      k_matrix := globalElem EA_over_L EI_over_L EI_over_L2 EI_over_L3 c s }

/-- The six global DOF indices of a beam's endpoints, in the order of
the dofs array of fem_system.cpp line 497. -/
def dofArray (b : Beam) : ℕ → ℕ := fun i =>
  if i < 3 then b.nodes.1 * 3 + i else b.nodes.2 * 3 + (i - 3)

/-- Contribution of one beam's 6×6 stiffness matrix to entry (r, c) of
the global matrix (the additive scatter of fem_system.cpp
lines 500-506). -/
def elemContrib (b : Beam) (r c : ℕ) : ℚ :=
  ∑ i ∈ Finset.range 6, ∑ j ∈ Finset.range 6,
    if dofArray b i = r ∧ dofArray b j = c then b.k_matrix i j else 0

/-- FEMSystem::assemble_global_stiffness (fem_system.cpp lines 478-511):
zero-initialized global matrix with every element matrix scattered in
additively. -/
def assembleGlobal (beams : List Beam) : Mat :=
  fun r c => (beams.map (fun b => elemContrib b r c)).sum

/-- The FEMSystem aggregate (src/fem_system.h lines 18-65): model data,
global matrix, force / displacement / reaction vectors, DOF count and
stress trackers. -/
structure FEMSystem where
  nodes : List Node
  beams : List Beam
  materials_list : List MaterialProfile
  beam_profiles_list : List BeamProfile
  global_k_matrix : Mat
  forces : EVec
  displacement : EVec
  reactions : EVec
  total_dof : ℕ
  max_stress : ℚ
  min_stress : ℚ

/-- The FEMSystem constructor (fem_system.cpp lines 3-11): total_dof is
three per node, displacement and forces are zero vectors of that size;
the reactions member and the global matrix are default-constructed
(empty, size 0), and the stress trackers start at 0. -/
def initFEMSystem (n : List Node) (s : List Beam) (materials : List MaterialProfile)
    (beam_profiles : List BeamProfile) : FEMSystem :=
  { nodes := n
    beams := s
    materials_list := materials
    beam_profiles_list := beam_profiles
    global_k_matrix := fun _ _ => 0
    forces := ⟨n.length * 3, fun _ => 0⟩
    displacement := ⟨n.length * 3, fun _ => 0⟩
    reactions := ⟨0, fun _ => 0⟩
    total_dof := n.length * 3
    max_stress := 0
    min_stress := 0 }

/-- Eigen conservativeResize: keeps existing coefficients, fills newly
created ones with uninitialized memory (modelled by `Env.uninit`). -/
def conservativeResize (env : Env) (v : EVec) (n : ℕ) : EVec :=
  ⟨n, fun i => if i < v.size then v.entry i else env.uninit⟩

/-- The size-update step at the top of solve_system (fem_system.cpp
lines 52-60). -/
def updateSizes (env : Env) (sys : FEMSystem) : FEMSystem :=
  if sys.nodes.length * 3 ≠ sys.total_dof then
    { sys with
      total_dof := sys.nodes.length * 3
      displacement := conservativeResize env sys.displacement (sys.nodes.length * 3)
      forces := conservativeResize env sys.forces (sys.nodes.length * 3) }
  else sys

/-- Step 1 of solve_system (fem_system.cpp lines 63-66): recompute every
beam's stiffness matrix. -/
def computeAllStiffness (env : Env) (sys : FEMSystem) : FEMSystem :=
  { sys with
    beams := sys.beams.map
      (compute_stiffness env sys.nodes sys.materials_list sys.beam_profiles_list) }

/-- The state after the first three phases of solve_system: size update,
per-beam stiffness, global assembly (fem_system.cpp lines 52-69). -/
def sysAssembled (env : Env) (sys : FEMSystem) : FEMSystem :=
  let s1 := computeAllStiffness env (updateSizes env sys)
  { s1 with global_k_matrix := assembleGlobal s1.beams }

/-- Free-DOF classification of fem_system.cpp lines 75-107: Free and
Slider nodes contribute all three DOFs, FixedPin only the rotation,
Fixed nothing. -/
def free_dof_indices (nodes : List Node) : List ℕ :=
  (List.range nodes.length).flatMap (fun i =>
    match (nodes.getD i default).constraint_type with
    | ConstraintType.Free => [i * 3, i * 3 + 1, i * 3 + 2]
    | ConstraintType.Slider => [i * 3, i * 3 + 1, i * 3 + 2]
    | ConstraintType.FixedPin => [i * 3 + 2]
    | ConstraintType.Fixed => [])

/-- Boolean test for the Slider constraint kind (the enum comparison
`constraint_type == Slider` of the C++). -/
def isSlider : ConstraintType → Bool
  | ConstraintType.Slider => true
  | _ => false

/-- Boolean test for the Free constraint kind (the enum comparison
`constraint_type != Free` of the C++ reaction loop). -/
def isFree : ConstraintType → Bool
  | ConstraintType.Free => true
  | _ => false

/-- The slider-node list of fem_system.cpp lines 136-141. -/
def slider_nodes (nodes : List Node) : List ℕ :=
  (List.range nodes.length).filter
    (fun i => isSlider (nodes.getD i default).constraint_type)

/-- The reduced stiffness matrix K_r of fem_system.cpp lines 118-128. -/
def reducedK (K : Mat) (free : List ℕ) : Mat :=
  fun i j => K (free.getD i 0) (free.getD j 0)

/-- The reduced force vector F_r of fem_system.cpp line 127. -/
def reducedF (forces : EVec) (free : List ℕ) : ℕ → ℚ :=
  fun i => forces.entry (free.getD i 0)

/-- FEMSystem::generate_constraint_row (fem_system.cpp lines 16-47):
for a Slider node, writes cos and sin of the normal angle into the
columns of the reduced basis holding that node's x and y DOFs; all
other entries of the matrix are left unchanged. -/
def generate_constraint_row (env : Env) (nodes : List Node) (C : Mat) (row_index : ℕ)
    (index : ℕ) (free : List ℕ) : Mat :=
  let node := nodes.getD index default
  if isSlider node.constraint_type = false then C
  else
    let theta := node.constraint_angle * env.pi / 180
    let normal_angle := theta + env.pi / 2
    let a_x := env.cos normal_angle
    let a_y := env.sin normal_angle
    let dof_x := index * 3
    let dof_y := index * 3 + 1
    fun r c =>
      if r = row_index ∧ c < free.length then
        if free.getD c 0 = dof_x then a_x
        else if free.getD c 0 = dof_y then a_y
        else C r c
      else C r c

/-- The constraint matrix C_r of fem_system.cpp lines 160-171:
zero-initialized, one generate_constraint_row call per slider node. -/
def constraintMatrix (env : Env) (nodes : List Node) (sliders : List ℕ)
    (free : List ℕ) : Mat :=
  (List.range sliders.length).foldl
    (fun C ci => generate_constraint_row env nodes C ci (sliders.getD ci 0) free)
    (fun _ _ => 0)

/-- Frobenius norm of the leading n×n block, Eigen's MatrixXd::norm()
(fem_system.cpp line 179). -/
def frobNorm (env : Env) (n : ℕ) (A : Mat) : ℚ :=
  env.sqrt (∑ i ∈ Finset.range n, ∑ j ∈ Finset.range n, A i j * A i j)

/-- The constraint scale factor of fem_system.cpp lines 179-181: the
norm of K_r, or 1.0 when that norm is not positive. -/
def constraintScale (env : Env) (sys : FEMSystem) (free : List ℕ) : ℚ :=
  let k_scale := frobNorm env free.length (reducedK sys.global_k_matrix free)
  if k_scale > 0 then k_scale else 1

/-- The scaled constraint matrix C_r_scaled of fem_system.cpp line 183. -/
def scaledC (env : Env) (sys : FEMSystem) (sliders free : List ℕ) : Mat :=
  fun r c => constraintMatrix env sys.nodes sliders free r c * constraintScale env sys free

/-- The augmented saddle-point matrix of fem_system.cpp lines 189-203:
K_r in the upper-left nf×nf block, the scaled constraint matrix
transposed in the upper right, the scaled constraint matrix in the
lower left, zero elsewhere. -/
def saddleMat (K C_s : Mat) (nf nc : ℕ) : Mat := fun i j =>
  if i < nf ∧ j < nf then K i j
  else if i < nf ∧ nf ≤ j ∧ j < nf + nc then C_s (j - nf) i
  else if nf ≤ i ∧ i < nf + nc ∧ j < nf then C_s (i - nf) j
  else 0

/-- The augmented right-hand side of fem_system.cpp lines 191-207: F_r
in the head, zero in the multiplier block. -/
def saddleRhs (F_r : ℕ → ℚ) (nf nc : ℕ) : EVec :=
  ⟨nf + nc, fun i => if i < nf then F_r i else 0⟩

/-- The multiplier recovery of fem_system.cpp line 240: the scaled
Lagrange multipliers times the constraint scale factor. -/
def unscale_multipliers (scaled : EVec) (constraint_scale : ℚ) : EVec :=
  ⟨scaled.size, fun i => scaled.entry i * constraint_scale⟩

/-- The displacement write-back of fem_system.cpp lines 151-155 and
244-251: a zero vector of size total_dof with the reduced solution
scattered through the free-DOF index list. -/
def applyDisplacement (sys : FEMSystem) (free : List ℕ) (u : EVec) : FEMSystem :=
  { sys with
    displacement :=
      ⟨sys.total_dof,
        (List.range free.length).foldl
          (fun acc i => fun d => if d = free.getD i 0 then u.entry i else acc d)
          (fun _ => 0)⟩ }

/-- The element length recomputed by the post-processor
(fem_system.cpp line 384).  It is the divisor of the direction-cosine
divisions at lines 385-386; unlike Beam::compute_stiffness, the
post-processor has no zero-length guard. -/
def ppLength (env : Env) (nodes : List Node) (b : Beam) : ℚ :=
  let dx := (nodes.getD b.nodes.2 default).position.1 - (nodes.getD b.nodes.1 default).position.1
  let dy := (nodes.getD b.nodes.2 default).position.2 - (nodes.getD b.nodes.1 default).position.2
  env.sqrt (dx * dx + dy * dy)

/-- The six-entry element end-displacement vector gathered from the
global displacement vector (fem_system.cpp lines 367-373). -/
def elementDisp (disp : ℕ → ℚ) (b : Beam) : ℕ → ℚ := fun i =>
  if i = 0 then disp (b.nodes.1 * 3)
  else if i = 1 then disp (b.nodes.1 * 3 + 1)
  else if i = 2 then disp (b.nodes.1 * 3 + 2)
  else if i = 3 then disp (b.nodes.2 * 3)
  else if i = 4 then disp (b.nodes.2 * 3 + 1)
  else disp (b.nodes.2 * 3 + 2)

/-- The local end-force vector of fem_system.cpp lines 375-406: global
end forces from the element stiffness matrix, rotated into element-axis
coordinates by T. -/
def localEndForces (env : Env) (nodes : List Node) (disp : ℕ → ℚ) (b : Beam) : ℕ → ℚ :=
  let global_end_forces := mulVec 6 b.k_matrix (elementDisp disp b)
  let dx := (nodes.getD b.nodes.2 default).position.1 - (nodes.getD b.nodes.1 default).position.1
  let dy := (nodes.getD b.nodes.2 default).position.2 - (nodes.getD b.nodes.1 default).position.2
  let L := ppLength env nodes b
  let c := dx / L
  let s := dy / L
  mulVec 6 (Tmat c s) global_end_forces

/-- Per-beam post-processing (fem_system.cpp lines 360-455): axial force
P from local end 2, max moment magnitude from the two end moments, and
the combined-stress rule with the 1e-12 section-modulus threshold. -/
def postprocessBeam (env : Env) (nodes : List Node) (shapes : List BeamProfile)
    (disp : ℕ → ℚ) (b : Beam) : Beam :=
  let lef := localEndForces env nodes disp b
  let P := lef 3
  let M1 := lef 2
  let M2 := lef 5
  let max_M := max |M1| |M2|
  let shape := shapes.getD b.shape_idx default
  let stress :=
    if |shape.section_modulus| < 1 / 1000000000000 then
      P / shape.area
    else
      let axial_stress := P / shape.area
      let bending_stress_max := max_M / shape.section_modulus
      let stress_tension := axial_stress + bending_stress_max
      let stress_compression := axial_stress - bending_stress_max
      if |stress_tension| > |stress_compression| then stress_tension
      else stress_compression
  { b with axial_force := P, max_moment := max_M, stress := stress }

/-- The whole post-processing loop over beams (fem_system.cpp
lines 352-462), including the stress trackers initialized to the
sentinels -1e10 and 1e10 before the loop. -/
def postprocess (env : Env) (sys : FEMSystem) : FEMSystem :=
  let newBeams := sys.beams.map
    (postprocessBeam env sys.nodes sys.beam_profiles_list sys.displacement.entry)
  { sys with
    beams := newBeams
    max_stress := (newBeams.map Beam.stress).foldl max (-(10 ^ 10 : ℚ))
    min_stress := (newBeams.map Beam.stress).foldl min (10 ^ 10 : ℚ) }

/-- The local reaction vector of fem_system.cpp line 297:
R = K_global · u − F over the full 3N vector.  In the C++ this is a
function-local variable that shadows the member FEMSystem::reactions. -/
def reactionsVec (sys : FEMSystem) : ℕ → ℚ := fun d =>
  mulVec sys.total_dof sys.global_k_matrix sys.displacement.entry d - sys.forces.entry d

/-- FEMSystem::solve_system (fem_system.cpp lines 50-476): size update,
stiffness recomputation, assembly, free-DOF reduction, the direct or
augmented saddle-point solve (the external Eigen fullPivLu solver is
the abstract `solver` argument), displacement write-back and
post-processing.  Returns the status code together with the final
state: 0 on success, -1 when there are no free DOFs, -2 when the
augmented solve returns a wrong-size result. -/
def solve_system (env : Env) (solver : ℕ → Mat → EVec → EVec) (sys0 : FEMSystem) :
    ℤ × FEMSystem :=
  let s := sysAssembled env sys0
  let free := free_dof_indices s.nodes
  if free.length = 0 then (-1, s)
  else
    let K_r := reducedK s.global_k_matrix free
    let F_r := reducedF s.forces free
    let sliders := slider_nodes s.nodes
    if sliders.length = 0 then
      let u_r := solver free.length K_r ⟨free.length, F_r⟩
      (0, postprocess env (applyDisplacement s free u_r))
    else
      let nf := free.length
      let nc := sliders.length
      let C_s := scaledC env s sliders free
      let full_solution := solver (nf + nc) (saddleMat K_r C_s nf nc) (saddleRhs F_r nf nc)
      if full_solution.size ≠ nf + nc then (-2, s)
      else
        let u_r : EVec := ⟨nf, full_solution.entry⟩
        let _lagrange_multipliers :=
          unscale_multipliers ⟨nc, fun i => full_solution.entry (nf + i)⟩
            (constraintScale env s free)
        (0, postprocess env (applyDisplacement s free u_r))

/-- Companion to solve_system exposing the Lagrange-multiplier vector
it computes at fem_system.cpp lines 236-240 (the value is dead there:
computed, never stored): the tail block of the augmented solution fed
through unscale_multipliers with the same constraint scale factor.
Returns none on the paths where solve_system never reaches that line. -/
def solve_lagrange_multipliers (env : Env) (solver : ℕ → Mat → EVec → EVec)
    (sys0 : FEMSystem) : Option EVec :=
  let s := sysAssembled env sys0
  let free := free_dof_indices s.nodes
  if free.length = 0 then none
  else
    let K_r := reducedK s.global_k_matrix free
    let F_r := reducedF s.forces free
    let sliders := slider_nodes s.nodes
    if sliders.length = 0 then none
    else
      let nf := free.length
      let nc := sliders.length
      let C_s := scaledC env s sliders free
      let full_solution := solver (nf + nc) (saddleMat K_r C_s nf nc) (saddleRhs F_r nf nc)
      if full_solution.size ≠ nf + nc then none
      else
        some (unscale_multipliers ⟨nc, fun i => full_solution.entry (nf + i)⟩
          (constraintScale env s free))

/-- Total applied force sums of fem_system.cpp lines 330-339, one per
component. -/
def totalApplied (sys : FEMSystem) (comp : ℕ) : ℚ :=
  ∑ i ∈ Finset.range sys.nodes.length, sys.forces.entry (i * 3 + comp)

/-- Total reaction sums of fem_system.cpp lines 300-327: reactions are
accumulated only at constrained (non-Free) nodes. -/
def totalReaction (sys : FEMSystem) (comp : ℕ) : ℚ :=
  ∑ i ∈ Finset.range sys.nodes.length,
    if isFree (sys.nodes.getD i default).constraint_type then 0
    else reactionsVec sys (i * 3 + comp)

/-- The equilibrium balance printed at fem_system.cpp lines 348-350:
applied plus reaction totals, per component (0 = Fx, 1 = Fy, 2 = Mz). -/
def balance (sys : FEMSystem) (comp : ℕ) : ℚ :=
  totalApplied sys comp + totalReaction sys comp

/-! Concrete models and solvers used to instantiate the theorems. -/

/-- A beam as built by the Beam constructor (src/beam.h lines 28-33)
with an explicit truss flag. -/
def mkBeam (n1 n2 mat shp : ℕ) (truss : Bool) : Beam :=
  { nodes := (n1, n2), k := 0, axial_force := 0, max_moment := 0,
    is_truss := truss, stress := 0, material_idx := mat, shape_idx := shp,
    k_matrix := fun _ _ => 0 }

/-- A solver model returning the zero vector of the requested size. -/
def zeroSolver : ℕ → Mat → EVec → EVec := fun n _ _ => ⟨n, fun _ => 0⟩

/-- A solver model returning the all-ones vector of the requested size. -/
def onesSolver : ℕ → Mat → EVec → EVec := fun n _ _ => ⟨n, fun _ => 1⟩

/-- Model A: a single Free node, no beams, no loads. -/
def nodesA : List Node :=
  [{ position := (0, 0), constraint_type := ConstraintType.Free, constraint_angle := 0 }]

/-- The system of model A at construction time. -/
def sysA : FEMSystem := initFEMSystem nodesA [] [] []

/-- Model F: a single Fixed node, no beams (every DOF eliminated). -/
def nodesF : List Node :=
  [{ position := (0, 0), constraint_type := ConstraintType.Fixed, constraint_angle := 0 }]

/-- The system of model F at construction time. -/
def sysF : FEMSystem := initFEMSystem nodesF [] [] []

/-- Model B: a Fixed node at the origin and a Slider node at (1, 0),
joined by a truss beam with E = 4 and A = 1, loaded by Fx = 8 at the
slider node.  Its reduced stiffness matrix has Frobenius norm 4, so the
constraint scale factor is 4. -/
def nodesB : List Node :=
  [{ position := (0, 0), constraint_type := ConstraintType.Fixed, constraint_angle := 0 },
   { position := (1, 0), constraint_type := ConstraintType.Slider, constraint_angle := 0 }]

/-- Material entry of model B. -/
def steelB : MaterialProfile := { name := "steel", youngs_modulus := 4 }

/-- Section entry of model B: a zero-inertia, zero-section-modulus rod. -/
def rodB : BeamProfile := { name := "rod", area := 1, moment_of_inertia := 0, section_modulus := 0 }

/-- The system of model B with the x load applied at the slider node. -/
def sysB : FEMSystem :=
  { initFEMSystem nodesB [mkBeam 0 1 0 0 true] [steelB] [rodB] with
    forces := ⟨6, fun i => if i = 3 then 8 else 0⟩ }

/-- Concrete environment for model B: the modelled cos is the constant
1 and the modelled sin the constant 0, so model B's slider constraint
row is (1, 0, 0) over its free-DOF basis. -/
def envB : Env :=
  { sqrt := ratSqrt, cos := fun _ => 1, sin := fun _ => 0, pi := 0, uninit := 0 }

/-- The vector (0, 0, 0, 2): an exact solution of model B's concrete
4×4 saddle-point system under envB. -/
def saddleSolverB : ℕ → Mat → EVec → EVec :=
  fun n _ _ => ⟨n, fun i => if i = 3 then 2 else 0⟩

/-- Model C: a cantilever: Fixed node at the origin, Free node at
(1, 0), one bending beam with E = A = I = Z = 1, tip load Fy = -6. -/
def nodesC : List Node :=
  [{ position := (0, 0), constraint_type := ConstraintType.Fixed, constraint_angle := 0 },
   { position := (1, 0), constraint_type := ConstraintType.Free, constraint_angle := 0 }]

/-- Material entry of model C. -/
def steelC : MaterialProfile := { name := "steel", youngs_modulus := 1 }

/-- Section entry of model C: unit area, inertia and section modulus. -/
def barC : BeamProfile := { name := "bar", area := 1, moment_of_inertia := 1, section_modulus := 1 }

/-- The system of model C with the tip load applied. -/
def sysC : FEMSystem :=
  { initFEMSystem nodesC [mkBeam 0 1 0 0 false] [steelC] [barC] with
    forces := ⟨6, fun i => if i = 4 then -6 else 0⟩ }

/-- The exact reduced solution of model C: u = 0, v = -2, theta = -3
solves K_r u_r = F_r there. -/
def cantSolver : ℕ → Mat → EVec → EVec :=
  fun n _ _ => ⟨n, fun i => if i = 1 then -2 else if i = 2 then -3 else 0⟩

/-- The stiffness-computed beam of model C: unit-parameter bending beam
along the x axis (direction cosines 1, 0). -/
def beamCk : Beam :=
  { mkBeam 0 1 0 0 false with k := 1, k_matrix := globalElem 1 1 1 1 1 0 }

/-- The state of model C right after the direct solve writes the exact
displacement back (before post-processing). -/
def sysCafter : FEMSystem :=
  applyDisplacement (sysAssembled env0 sysC) [3, 4, 5]
    (cantSolver 3
      (reducedK (sysAssembled env0 sysC).global_k_matrix [3, 4, 5])
      ⟨3, reducedF (sysAssembled env0 sysC).forces [3, 4, 5]⟩)

/-- A hand-built solved cantilever state used to instantiate the
equilibrium theorem: model C's geometry, its computed beam, the
assembled matrix, the tip load and the exact displacement. -/
def sysW : FEMSystem :=
  { nodes := nodesC
    beams := [beamCk]
    materials_list := [steelC]
    beam_profiles_list := [barC]
    global_k_matrix := assembleGlobal [beamCk]
    forces := ⟨6, fun i => if i = 4 then -6 else 0⟩
    displacement := ⟨6, fun d => if d = 4 then -2 else if d = 5 then -3 else 0⟩
    reactions := ⟨0, fun _ => 0⟩
    total_dof := 6
    max_stress := 0
    min_stress := 0 }

/-- Model D: two coincident nodes (both at the origin) joined by a
beam: the degenerate zero-length element. -/
def nodesD : List Node :=
  [{ position := (0, 0), constraint_type := ConstraintType.Fixed, constraint_angle := 0 },
   { position := (0, 0), constraint_type := ConstraintType.Free, constraint_angle := 0 }]

/-- The degenerate beam of model D. -/
def beamD : Beam := mkBeam 0 1 0 0 false

/-- Catalog entries for model D. -/
def matsD : List MaterialProfile := [{ name := "steel", youngs_modulus := 1 }]

/-- Section entries for model D. -/
def shapesD : List BeamProfile :=
  [{ name := "bar", area := 1, moment_of_inertia := 1, section_modulus := 1 }]

/-! Support lemmas: constraint-kind case facts, concrete square roots,
and field-preservation facts about the pipeline phases. -/

@[simp] lemma isSlider_free : isSlider ConstraintType.Free = false := rfl

@[simp] lemma isSlider_fixed : isSlider ConstraintType.Fixed = false := rfl

@[simp] lemma isSlider_fixedpin : isSlider ConstraintType.FixedPin = false := rfl

@[simp] lemma isSlider_slider : isSlider ConstraintType.Slider = true := rfl

@[simp] lemma isFree_free : isFree ConstraintType.Free = true := rfl

@[simp] lemma isFree_fixed : isFree ConstraintType.Fixed = false := rfl

@[simp] lemma isFree_fixedpin : isFree ConstraintType.FixedPin = false := rfl

@[simp] lemma isFree_slider : isFree ConstraintType.Slider = false := rfl

lemma isSlider_eq_true_iff (c : ConstraintType) :
    isSlider c = true ↔ c = ConstraintType.Slider := by
  cases c <;> simp [isSlider]

@[simp] lemma ratSqrt_zero : ratSqrt 0 = 0 := by
  simp [ratSqrt]

@[simp] lemma ratSqrt_one : ratSqrt 1 = 1 := by
  simp [ratSqrt]

@[simp] lemma ratSqrt_sixteen : ratSqrt 16 = 4 := by
  have hn : (16 : ℚ).num.toNat = 16 := rfl
  have hd : (16 : ℚ).den = 1 := rfl
  have hs : Nat.sqrt 16 = 4 := by
    have h : (16 : ℕ) = 4 * 4 := rfl
    rw [h, Nat.sqrt_eq]
  simp [ratSqrt, hn, hd, hs]

lemma updateSizes_id (env : Env) (sys : FEMSystem) (h : sys.nodes.length * 3 = sys.total_dof) :
    updateSizes env sys = sys := by
  simp [updateSizes, h]

lemma updateSizes_nodes (env : Env) (sys : FEMSystem) :
    (updateSizes env sys).nodes = sys.nodes := by
  unfold updateSizes
  split <;> rfl

lemma updateSizes_displacement (env : Env) (sys : FEMSystem)
    (h : sys.nodes.length * 3 = sys.total_dof) :
    (updateSizes env sys).displacement = sys.displacement := by
  rw [updateSizes_id env sys h]

lemma sysAssembled_nodes (env : Env) (sys : FEMSystem) :
    (sysAssembled env sys).nodes = sys.nodes := by
  unfold sysAssembled computeAllStiffness
  simp [updateSizes_nodes]

lemma sysAssembled_displacement (env : Env) (sys : FEMSystem)
    (h : sys.nodes.length * 3 = sys.total_dof) :
    (sysAssembled env sys).displacement = sys.displacement := by
  unfold sysAssembled computeAllStiffness
  rw [updateSizes_id env sys h]

lemma sysAssembled_reactions (env : Env) (sys : FEMSystem) :
    (sysAssembled env sys).reactions = sys.reactions := by
  unfold sysAssembled computeAllStiffness updateSizes
  split <;> rfl

lemma postprocess_reactions (env : Env) (sys : FEMSystem) :
    (postprocess env sys).reactions = sys.reactions := rfl

lemma applyDisplacement_reactions (sys : FEMSystem) (free : List ℕ) (u : EVec) :
    (applyDisplacement sys free u).reactions = sys.reactions := rfl

lemma balance_postprocess (env : Env) (sys : FEMSystem) (comp : ℕ) :
    balance (postprocess env sys) comp = balance sys comp := rfl

lemma updateSizes_beams (env : Env) (sys : FEMSystem) :
    (updateSizes env sys).beams = sys.beams := by
  unfold updateSizes
  split <;> rfl

lemma updateSizes_materials (env : Env) (sys : FEMSystem) :
    (updateSizes env sys).materials_list = sys.materials_list := by
  unfold updateSizes
  split <;> rfl

lemma updateSizes_profiles (env : Env) (sys : FEMSystem) :
    (updateSizes env sys).beam_profiles_list = sys.beam_profiles_list := by
  unfold updateSizes
  split <;> rfl

lemma sysAssembled_beams (env : Env) (sys : FEMSystem) :
    (sysAssembled env sys).beams =
      sys.beams.map (compute_stiffness env sys.nodes sys.materials_list sys.beam_profiles_list) := by
  unfold sysAssembled computeAllStiffness
  simp [updateSizes_beams, updateSizes_nodes, updateSizes_materials, updateSizes_profiles]

lemma applyDisplacement_beams (sys : FEMSystem) (free : List ℕ) (u : EVec) :
    (applyDisplacement sys free u).beams = sys.beams := rfl

lemma postprocess_max_of_nil (env : Env) (sys : FEMSystem) (h : sys.beams = []) :
    (postprocess env sys).max_stress = -(10 ^ 10 : ℚ) ∧
    (postprocess env sys).min_stress = (10 ^ 10 : ℚ) := by
  unfold postprocess
  simp [h]

/-- Case shape of solve_system: it either fails with -1 on an empty
free-DOF list, fails with -2 after the augmented solve, or succeeds
with 0 and a post-processed state carrying some scattered reduced
solution. -/
lemma solve_system_shape (env : Env) (solver : ℕ → Mat → EVec → EVec) (sys : FEMSystem) :
    ((free_dof_indices (sysAssembled env sys).nodes).length = 0 ∧
      solve_system env solver sys = (-1, sysAssembled env sys)) ∨
    ((free_dof_indices (sysAssembled env sys).nodes).length ≠ 0 ∧
      solve_system env solver sys = (-2, sysAssembled env sys)) ∨
    ((free_dof_indices (sysAssembled env sys).nodes).length ≠ 0 ∧ ∃ u : EVec,
      solve_system env solver sys =
        (0, postprocess env (applyDisplacement (sysAssembled env sys)
          (free_dof_indices (sysAssembled env sys).nodes) u))) := by
  simp only [solve_system]
  split_ifs with h1 h2 h3
  · exact Or.inl ⟨h1, rfl⟩
  · exact Or.inr (Or.inr ⟨h1, _, rfl⟩)
  · exact Or.inr (Or.inl ⟨h1, rfl⟩)
  · exact Or.inr (Or.inr ⟨h1, _, rfl⟩)

lemma solve_system_reactions (env : Env) (solver : ℕ → Mat → EVec → EVec) (sys : FEMSystem) :
    ((solve_system env solver sys).2).reactions = sys.reactions := by
  simp only [solve_system]
  split
  · rw [sysAssembled_reactions]
  · split
    · rw [postprocess_reactions, applyDisplacement_reactions, sysAssembled_reactions]
    · split
      · rw [sysAssembled_reactions]
      · rw [postprocess_reactions, applyDisplacement_reactions, sysAssembled_reactions]

/-- Claim C8: for every beam element, node list and catalogs, computing
the element stiffness with the truss flag set produces exactly the same
global 6×6 stiffness matrix as computing it with the truss flag unset
on a section profile whose moment of inertia is 0: the truss flag
forces I to 0 before the bending terms are built. -/
theorem C8_truss_flag_equivalence (env : Env) (node_list : List Node)
    (materials : List MaterialProfile) (shapes : List BeamProfile) (b : Beam)
    (hI : (shapes.getD b.shape_idx default).moment_of_inertia = 0) :
    ∀ i j,
      (compute_stiffness env node_list materials shapes
        { b with is_truss := true }).k_matrix i j =
      (compute_stiffness env node_list materials shapes
        { b with is_truss := false }).k_matrix i j := by
  intro i j
  simp only [List.getD_eq_getElem?_getD] at hI
  simp [compute_stiffness, hI, apply_ite (fun s : Beam => s.k_matrix i j)]

/-- Witness for C8: the truss beam of model B on its zero-inertia
section profile. -/
theorem C8_truss_flag_equivalence_witness :
    (compute_stiffness env0 nodesB
      [{ name := "steel", youngs_modulus := 4 }]
      [{ name := "rod", area := 1, moment_of_inertia := 0, section_modulus := 0 }]
      { mkBeam 0 1 0 0 true with is_truss := true }).k_matrix 0 0 =
    (compute_stiffness env0 nodesB
      [{ name := "steel", youngs_modulus := 4 }]
      [{ name := "rod", area := 1, moment_of_inertia := 0, section_modulus := 0 }]
      { mkBeam 0 1 0 0 true with is_truss := false }).k_matrix 0 0 :=
  C8_truss_flag_equivalence env0 nodesB
    [{ name := "steel", youngs_modulus := 4 }]
    [{ name := "rod", area := 1, moment_of_inertia := 0, section_modulus := 0 }]
    (mkBeam 0 1 0 0 true) rfl 0 0

/-- Claim C10: for every model whose beam list is empty, a
solve_system call that returns success leaves the global stress
trackers at their loop-initialization sentinels, max_stress = -1e10
and min_stress = 1e10, so min_stress is greater than max_stress and
the exposed stress range is inverted. -/
theorem C10_empty_beam_list (env : Env) (solver : ℕ → Mat → EVec → EVec)
    (sys : FEMSystem) (hb : sys.beams = [])
    (hs : (solve_system env solver sys).1 = 0) :
    (solve_system env solver sys).2.max_stress = -(10 ^ 10 : ℚ) ∧
    (solve_system env solver sys).2.min_stress = (10 ^ 10 : ℚ) ∧
    (solve_system env solver sys).2.max_stress < (solve_system env solver sys).2.min_stress := by
  rcases solve_system_shape env solver sys with ⟨_, h⟩ | ⟨_, h⟩ | ⟨_, u, h⟩
  · rw [h] at hs
    norm_num at hs
  · rw [h] at hs
    norm_num at hs
  · rw [h]
    have hnil : (applyDisplacement (sysAssembled env sys)
        (free_dof_indices (sysAssembled env sys).nodes) u).beams = [] := by
      rw [applyDisplacement_beams, sysAssembled_beams, hb]
      rfl
    have hpp := postprocess_max_of_nil env _ hnil
    refine ⟨hpp.1, hpp.2, ?_⟩
    rw [hpp.1, hpp.2]
    norm_num

/-- Witness for C10: model A (a single Free node, no beams) solved with
the zero solver. -/
theorem C10_empty_beam_list_witness :
    (solve_system env0 zeroSolver sysA).2.max_stress = -(10 ^ 10 : ℚ) ∧
    (solve_system env0 zeroSolver sysA).2.min_stress = (10 ^ 10 : ℚ) ∧
    (solve_system env0 zeroSolver sysA).2.max_stress < (solve_system env0 zeroSolver sysA).2.min_stress :=
  C10_empty_beam_list env0 zeroSolver sysA rfl (by
    norm_num [solve_system, sysAssembled, computeAllStiffness, updateSizes, initFEMSystem,
      free_dof_indices, slider_nodes, sysA, nodesA, env0, List.range_succ])

/-- Claim C1 (code bug): solve_system never writes the reactions member
of FEMSystem.  At fem_system.cpp line 297 the vector R = K_global·u − F
is a function-local variable that shadows the member declared at
fem_system.h line 60 ("computed after solve"), so even after a
successful solve (status 0) the member is still the empty
default-constructed vector of size 0 rather than a readable 3N reaction
vector: here model A solves with status 0 and total_dof 3, yet the
reactions member is unchanged from construction and has size 0. -/
theorem C1_reactions_member_never_written :
    (solve_system env0 zeroSolver sysA).1 = 0 ∧
    (solve_system env0 zeroSolver sysA).2.reactions = sysA.reactions ∧
    (solve_system env0 zeroSolver sysA).2.reactions.size = 0 ∧
    (solve_system env0 zeroSolver sysA).2.total_dof = 3 := by
  refine ⟨?_, solve_system_reactions env0 zeroSolver sysA, ?_, ?_⟩ <;>
    norm_num [solve_system, sysAssembled, computeAllStiffness, updateSizes, initFEMSystem,
      free_dof_indices, slider_nodes, sysA, nodesA, env0, List.range_succ,
      postprocess, applyDisplacement]

/-- A node list in which every node is Fixed yields an empty free-DOF
list. -/
lemma free_dof_indices_nil (nodes : List Node)
    (h : ∀ nd ∈ nodes, nd.constraint_type = ConstraintType.Fixed) :
    free_dof_indices nodes = [] := by
  unfold free_dof_indices
  rw [List.flatMap_eq_nil_iff]
  intro i hi
  rw [List.mem_range] at hi
  have hmem : nodes.getD i default ∈ nodes := by
    rw [List.getD_eq_getElem nodes default hi]
    exact List.getElem_mem hi
  rw [h _ hmem]

/-- Claim C4: for every model in which every node's constraint type
eliminates all its DOFs (every node Fixed), solve_system returns the
no-free-DOFs error status -1 and leaves the displacement vector exactly
as it was before the call (all zero when starting from the constructor
state): no partial result is written. -/
theorem C4_all_fixed_no_free_dofs (env : Env) (solver : ℕ → Mat → EVec → EVec)
    (sys : FEMSystem)
    (hfix : ∀ nd ∈ sys.nodes, nd.constraint_type = ConstraintType.Fixed)
    (hdof : sys.nodes.length * 3 = sys.total_dof)
    (hzero : ∀ i, sys.displacement.entry i = 0) :
    (solve_system env solver sys).1 = -1 ∧
    (solve_system env solver sys).2.displacement = sys.displacement ∧
    (∀ i, (solve_system env solver sys).2.displacement.entry i = 0) := by
  have hfree : free_dof_indices (sysAssembled env sys).nodes = [] := by
    rw [sysAssembled_nodes]
    exact free_dof_indices_nil sys.nodes hfix
  have hdisp : (sysAssembled env sys).displacement = sys.displacement :=
    sysAssembled_displacement env sys hdof
  rcases solve_system_shape env solver sys with ⟨_, h⟩ | ⟨hne, _⟩ | ⟨hne, _, _⟩
  · rw [h]
    exact ⟨rfl, hdisp, fun i => by rw [hdisp]; exact hzero i⟩
  · exact absurd (by rw [hfree]; rfl) hne
  · exact absurd (by rw [hfree]; rfl) hne

/-- Witness for C4: model F, a single Fixed node. -/
theorem C4_all_fixed_no_free_dofs_witness :
    (solve_system env0 zeroSolver sysF).1 = -1 ∧
    (solve_system env0 zeroSolver sysF).2.displacement = sysF.displacement ∧
    (∀ i, (solve_system env0 zeroSolver sysF).2.displacement.entry i = 0) :=
  C4_all_fixed_no_free_dofs env0 zeroSolver sysF
    (by
      intro nd hnd
      simp only [sysF, initFEMSystem, nodesF, List.mem_singleton] at hnd
      rw [hnd])
    rfl
    (fun _ => rfl)

/-- Claim C5: solve_system returns 0 exactly when the solve succeeds,
and a negative code in exactly two failure cases: -1 when the free-DOF
list is empty, and the distinct code -2 when the augmented solve
returns a result whose size does not match the augmented system size. -/
theorem C5_status_codes (env : Env) (solver : ℕ → Mat → EVec → EVec) (sys : FEMSystem) :
    let s := sysAssembled env sys
    let free := free_dof_indices s.nodes
    let sliders := slider_nodes s.nodes
    let w := solver (free.length + sliders.length)
      (saddleMat (reducedK s.global_k_matrix free) (scaledC env s sliders free)
        free.length sliders.length)
      (saddleRhs (reducedF s.forces free) free.length sliders.length)
    let st := (solve_system env solver sys).1
    (st = 0 ∨ st = -1 ∨ st = -2) ∧
    (st = -1 ↔ free.length = 0) ∧
    (st = -2 ↔ free.length ≠ 0 ∧ sliders.length ≠ 0 ∧
      w.size ≠ free.length + sliders.length) ∧
    (st = 0 ↔ free.length ≠ 0 ∧
      (sliders.length = 0 ∨ w.size = free.length + sliders.length)) := by
  simp only [solve_system]
  split_ifs with h1 h2 h3
  · norm_num [h1]
  · norm_num [h1, h2]
  · norm_num [h1, h2, h3]
  · rw [not_ne_iff] at h3
    norm_num [h1, h2, h3]

/-- Claim C7: for every beam processed by the post-processor, if the
magnitude of its section modulus is below the 1e-12 threshold the
stored combined stress equals P divided by the area (P the axial force
at end 2); otherwise the stored stress is whichever of
P/area + maxMoment/Z and P/area - maxMoment/Z has the larger absolute
value, with its sign preserved, where maxMoment is the larger of the
two end-moment magnitudes. -/
theorem C7_combined_stress (env : Env) (nodes : List Node) (shapes : List BeamProfile)
    (disp : ℕ → ℚ) (b : Beam) :
    let lef := localEndForces env nodes disp b
    let P := lef 3
    let maxM := max |lef 2| |lef 5|
    let shape := shapes.getD b.shape_idx default
    let b2 := postprocessBeam env nodes shapes disp b
    b2.axial_force = P ∧
    b2.max_moment = maxM ∧
    (|shape.section_modulus| < 1 / 1000000000000 → b2.stress = P / shape.area) ∧
    (¬ |shape.section_modulus| < 1 / 1000000000000 →
      (b2.stress = P / shape.area + maxM / shape.section_modulus ∨
       b2.stress = P / shape.area - maxM / shape.section_modulus) ∧
      |b2.stress| = max |P / shape.area + maxM / shape.section_modulus|
        |P / shape.area - maxM / shape.section_modulus|) := by
  intro lef P maxM shape b2
  have h1 : b2.axial_force = P := rfl
  have h2 : b2.max_moment = maxM := rfl
  have hs : b2.stress =
      (if |shape.section_modulus| < 1 / 1000000000000 then P / shape.area
       else if |P / shape.area + maxM / shape.section_modulus| >
           |P / shape.area - maxM / shape.section_modulus| then
         P / shape.area + maxM / shape.section_modulus
       else P / shape.area - maxM / shape.section_modulus) := rfl
  refine ⟨h1, h2, fun hc => ?_, fun hc => ?_⟩
  · rw [hs, if_pos hc]
  · rw [hs, if_neg hc]
    by_cases habs : |P / shape.area + maxM / shape.section_modulus| >
        |P / shape.area - maxM / shape.section_modulus|
    · rw [if_pos habs]
      exact ⟨Or.inl rfl, (max_eq_left habs.le).symm⟩
    · rw [if_neg habs]
      exact ⟨Or.inr rfl, (max_eq_right (le_of_not_lt habs)).symm⟩

/-- Witness for C7: the truss rod of model B (section modulus 0, below
the threshold) with the zero displacement field: the stored stress is
the pure axial P divided by the area. -/
theorem C7_combined_stress_witness :
    (postprocessBeam env0 nodesB [rodB] (fun _ => 0) (mkBeam 0 1 0 0 true)).stress =
      localEndForces env0 nodesB (fun _ => 0) (mkBeam 0 1 0 0 true) 3 /
        ([rodB].getD (mkBeam 0 1 0 0 true).shape_idx default).area :=
  (C7_combined_stress env0 nodesB [rodB] (fun _ => 0) (mkBeam 0 1 0 0 true)).2.2.1
    (by norm_num [rodB, mkBeam])

/-- Claim C3 counterexample: the claim asserts that the whole solve
pipeline, post-processing included, performs no division by zero on a
beam whose endpoints coincide.  But the post-processor recomputes the
element length at fem_system.cpp line 384 with no zero-length guard and
divides the direction cosines by it at lines 385-386; for model D (two
nodes at the origin joined by a beam) that divisor is exactly 0, so the
direction-cosine divisions are divisions by zero (in the C++ doubles,
0.0/0.0 = NaN, which then poisons that element's internal forces and
stress). -/
theorem C3_counterexample : ppLength env0 nodesD beamD = 0 := by
  norm_num [ppLength, nodesD, beamD, mkBeam, env0]

/-- Claim C3 as amended: for a beam whose endpoint nodes coincide, the
stiffness formulation and assembly are safe: the element stiffness
matrix is set to the zero 6×6 matrix and its contribution to every
entry of the global stiffness matrix is exactly zero; the
post-processing length for that element, however, is exactly zero, so
the unguarded direction-cosine divisions of fem_system.cpp lines
385-386 divide by zero. -/
theorem C3_degenerate_element (env : Env) (nodes : List Node)
    (mats : List MaterialProfile) (shapes : List BeamProfile) (b : Beam)
    (hsqrt : env.sqrt 0 = 0)
    (hpos : (nodes.getD b.nodes.1 default).position = (nodes.getD b.nodes.2 default).position) :
    (∀ i j, (compute_stiffness env nodes mats shapes b).k_matrix i j = 0) ∧
    (∀ r c, elemContrib (compute_stiffness env nodes mats shapes b) r c = 0) ∧
    ppLength env nodes (compute_stiffness env nodes mats shapes b) = 0 := by
  have hdx : (nodes.getD b.nodes.2 default).position.1 -
      (nodes.getD b.nodes.1 default).position.1 = 0 := by
    rw [hpos, sub_self]
  have hdy : (nodes.getD b.nodes.2 default).position.2 -
      (nodes.getD b.nodes.1 default).position.2 = 0 := by
    rw [hpos, sub_self]
  have hcs : compute_stiffness env nodes mats shapes b = { b with k_matrix := fun _ _ => 0 } := by
    simp only [compute_stiffness, hdx, hdy]
    rw [if_pos]
    norm_num [hsqrt]
  have hzero : ∀ i j, (compute_stiffness env nodes mats shapes b).k_matrix i j = 0 := by
    intro i j
    rw [hcs]
  refine ⟨hzero, ?_, ?_⟩
  · intro r c
    simp [elemContrib, hzero]
  · rw [hcs]
    show env.sqrt _ = 0
    rw [hdx, hdy]
    norm_num [hsqrt]

/-- Witness for the amended C3: model D, the two coincident nodes at
the origin under the concrete environment env0. -/
theorem C3_degenerate_element_witness :
    (compute_stiffness env0 nodesD matsD shapesD beamD).k_matrix 0 0 = 0 ∧
    elemContrib (compute_stiffness env0 nodesD matsD shapesD beamD) 0 0 = 0 ∧
    ppLength env0 nodesD (compute_stiffness env0 nodesD matsD shapesD beamD) = 0 :=
  ⟨(C3_degenerate_element env0 nodesD matsD shapesD beamD (by simp [env0]) rfl).1 0 0,
   (C3_degenerate_element env0 nodesD matsD shapesD beamD (by simp [env0]) rfl).2.1 0 0,
   (C3_degenerate_element env0 nodesD matsD shapesD beamD (by simp [env0]) rfl).2.2⟩

/-- generate_constraint_row leaves every row other than its own
unchanged. -/
lemma generate_constraint_row_other (env : Env) (nodes : List Node) (C : Mat)
    (ri idx : ℕ) (free : List ℕ) (r c : ℕ) (h : r ≠ ri) :
    generate_constraint_row env nodes C ri idx free r c = C r c := by
  unfold generate_constraint_row
  split
  · rfl
  · simp [h]

/-- The constraint-row fold leaves rows at and beyond the number of
processed sliders untouched. -/
lemma constraint_fold_untouched (env : Env) (nodes : List Node) (sliders free : List ℕ) :
    ∀ (n : ℕ) (C0 : Mat) (r c : ℕ), n ≤ r →
      ((List.range n).foldl
        (fun C ci => generate_constraint_row env nodes C ci (sliders.getD ci 0) free) C0) r c =
      C0 r c := by
  intro n
  induction n with
  | zero =>
    intro C0 r c _
    rfl
  | succ k ih =>
    intro C0 r c hr
    rw [List.range_succ, List.foldl_append, List.foldl_cons, List.foldl_nil,
      generate_constraint_row_other env nodes _ k _ free r c (by omega)]
    exact ih C0 r c (by omega)

/-- generate_constraint_row on its own row, for an actual Slider node:
the slider's x free-DOF column receives cos of the normal angle, its y
free-DOF column sin of the normal angle, and any other in-range column
keeps the previous matrix value. -/
lemma generate_constraint_row_own (env : Env) (nodes : List Node) (C : Mat)
    (ri idx : ℕ) (free : List ℕ) (c : ℕ)
    (hsl : isSlider (nodes.getD idx default).constraint_type = true)
    (hc : c < free.length) :
    generate_constraint_row env nodes C ri idx free ri c =
      if free.getD c 0 = idx * 3 then
        env.cos ((nodes.getD idx default).constraint_angle * env.pi / 180 + env.pi / 2)
      else if free.getD c 0 = idx * 3 + 1 then
        env.sin ((nodes.getD idx default).constraint_angle * env.pi / 180 + env.pi / 2)
      else C ri c := by
  unfold generate_constraint_row
  rw [hsl]
  simp [hc]

/-- Every member of the slider-node list is a Slider node. -/
lemma slider_nodes_isSlider (nodes : List Node) :
    ∀ s ∈ slider_nodes nodes, isSlider (nodes.getD s default).constraint_type = true := by
  intro s hs
  exact (List.mem_filter.mp hs).2

/-- Claim C6: for every Slider node, the constraint reducer emits
exactly one constraint row over the free-DOF basis whose entries are
cos(theta + 90 degrees) at the column holding that node's x DOF and
sin(theta + 90 degrees) at the column holding that node's y DOF (theta
the node's slider angle converted from degrees to radians), and zero
everywhere else in the row; a model with no Slider nodes produces no
constraint rows at all. -/
theorem C6_slider_constraint_rows (env : Env) (nodes : List Node) :
    let free := free_dof_indices nodes
    let sliders := slider_nodes nodes
    (∀ ci c, ci < sliders.length → c < free.length →
      constraintMatrix env nodes sliders free ci c =
        (if free.getD c 0 = sliders.getD ci 0 * 3 then
          env.cos ((nodes.getD (sliders.getD ci 0) default).constraint_angle * env.pi / 180 +
            env.pi / 2)
        else if free.getD c 0 = sliders.getD ci 0 * 3 + 1 then
          env.sin ((nodes.getD (sliders.getD ci 0) default).constraint_angle * env.pi / 180 +
            env.pi / 2)
        else 0)) ∧
    ((∀ nd ∈ nodes, nd.constraint_type ≠ ConstraintType.Slider) →
      slider_nodes nodes = []) := by
  intro free sliders
  constructor
  · intro ci c hci hc
    unfold constraintMatrix
    have key : ∀ (n : ℕ), n ≤ sliders.length → ci < n →
        ((List.range n).foldl
          (fun C k => generate_constraint_row env nodes C k (sliders.getD k 0) free)
          (fun _ _ => 0)) ci c =
        (if free.getD c 0 = sliders.getD ci 0 * 3 then
          env.cos ((nodes.getD (sliders.getD ci 0) default).constraint_angle * env.pi / 180 +
            env.pi / 2)
        else if free.getD c 0 = sliders.getD ci 0 * 3 + 1 then
          env.sin ((nodes.getD (sliders.getD ci 0) default).constraint_angle * env.pi / 180 +
            env.pi / 2)
        else 0) := by
      intro n
      induction n with
      | zero =>
        intro _ h
        omega
      | succ k ih =>
        intro hk hci2
        rw [List.range_succ, List.foldl_append, List.foldl_cons, List.foldl_nil]
        rcases Nat.lt_or_ge ci k with hlt | hge
        · rw [generate_constraint_row_other env nodes _ k _ free ci c (by omega)]
          exact ih (by omega) hlt
        · have heq : ci = k := by omega
          subst heq
          have hmem : sliders.getD ci 0 ∈ sliders := by
            rw [List.getD_eq_getElem sliders 0 (by omega)]
            exact List.getElem_mem (by omega)
          have hsl := slider_nodes_isSlider nodes (sliders.getD ci 0) hmem
          rw [generate_constraint_row_own env nodes _ ci _ free c hsl hc,
            constraint_fold_untouched env nodes sliders free ci _ ci c (le_refl ci)]
    exact key sliders.length (le_refl _) hci
  · intro h
    unfold slider_nodes
    rw [List.filter_eq_nil_iff]
    intro i hi
    rw [List.mem_range] at hi
    have hmem : nodes.getD i default ∈ nodes := by
      rw [List.getD_eq_getElem nodes default hi]
      exact List.getElem_mem hi
    rw [isSlider_eq_true_iff]
    exact h _ hmem

/-- Witness for C6: the slider row of model B at its first free-DOF
column. -/
theorem C6_slider_constraint_rows_witness :
    constraintMatrix envB nodesB (slider_nodes nodesB) (free_dof_indices nodesB) 0 0 =
      (if (free_dof_indices nodesB).getD 0 0 = (slider_nodes nodesB).getD 0 0 * 3 then
        envB.cos ((nodesB.getD ((slider_nodes nodesB).getD 0 0) default).constraint_angle *
          envB.pi / 180 + envB.pi / 2)
      else if (free_dof_indices nodesB).getD 0 0 = (slider_nodes nodesB).getD 0 0 * 3 + 1 then
        envB.sin ((nodesB.getD ((slider_nodes nodesB).getD 0 0) default).constraint_angle *
          envB.pi / 180 + envB.pi / 2)
      else 0) :=
  (C6_slider_constraint_rows envB nodesB).1 0 0
    (by norm_num [slider_nodes, nodesB, List.range_succ])
    (by norm_num [free_dof_indices, nodesB, List.range_succ])

/-- The assembled global matrix is the assembly of the assembled
state's beams. -/
lemma sysAssembled_global (env : Env) (sys : FEMSystem) :
    (sysAssembled env sys).global_k_matrix = assembleGlobal (sysAssembled env sys).beams := rfl

lemma sysAssembled_forces (env : Env) (sys : FEMSystem)
    (h : sys.nodes.length * 3 = sys.total_dof) :
    (sysAssembled env sys).forces = sys.forces := by
  unfold sysAssembled computeAllStiffness
  rw [updateSizes_id env sys h]

/-- Pointwise form of the saddle-point matrix. -/
lemma saddleMat_apply (K C : Mat) (nf nc i j : ℕ) :
    saddleMat K C nf nc i j =
      if i < nf ∧ j < nf then K i j
      else if i < nf ∧ nf ≤ j ∧ j < nf + nc then C (j - nf) i
      else if nf ≤ i ∧ i < nf + nc ∧ j < nf then C (i - nf) j
      else 0 := rfl

/-- Pointwise form of the scaled constraint matrix. -/
lemma scaledC_apply (env : Env) (sys : FEMSystem) (sliders free : List ℕ) (r c : ℕ) :
    scaledC env sys sliders free r c =
      constraintMatrix env sys.nodes sliders free r c * constraintScale env sys free := rfl

/-- Pointwise form of the augmented right-hand side. -/
lemma saddleRhs_entry (F_r : ℕ → ℚ) (nf nc i : ℕ) :
    (saddleRhs F_r nf nc).entry i = if i < nf then F_r i else 0 := rfl

/-- The constraint scale factor is always positive: it is either the
positive norm of K_r or the fallback 1. -/
lemma constraintScale_pos (env : Env) (sys : FEMSystem) (free : List ℕ) :
    0 < constraintScale env sys free := by
  simp only [constraintScale]
  split
  · assumption
  · norm_num

/-- Claim C2 as amended: on the constrained path the Lagrange-multiplier
block of the augmented solution is unscaled by MULTIPLYING it by the
same constraint scale factor that scaled the constraint rows (not by
dividing, as the claim states) — and multiplication is the correct
recovery: whenever the solver output exactly satisfies the scaled
saddle-point system, the multipliers recovered by multiplication
satisfy the unscaled KKT stationarity equation
K_r·u + C_rᵀ·λ = F_r together with the constraint C_r·u = 0. -/
theorem C2_multiplier_unscaling (env : Env) (solver : ℕ → Mat → EVec → EVec)
    (sys : FEMSystem) :
    let s := sysAssembled env sys
    let free := free_dof_indices s.nodes
    let sliders := slider_nodes s.nodes
    let nf := free.length
    let nc := sliders.length
    let K_r := reducedK s.global_k_matrix free
    let F_r := reducedF s.forces free
    let C_r := constraintMatrix env s.nodes sliders free
    let scale := constraintScale env s free
    let SM := saddleMat K_r (scaledC env s sliders free) nf nc
    let rhs := saddleRhs F_r nf nc
    let w := solver (nf + nc) SM rhs
    nf ≠ 0 → nc ≠ 0 → w.size = nf + nc →
    (∀ i, i < nf + nc → mulVec (nf + nc) SM w.entry i = rhs.entry i) →
    (solve_lagrange_multipliers env solver sys =
      some (unscale_multipliers ⟨nc, fun i => w.entry (nf + i)⟩ scale)) ∧
    0 < scale ∧
    (∀ i, i < nf →
      mulVec nf K_r w.entry i +
        (∑ r ∈ Finset.range nc, C_r r i * (w.entry (nf + r) * scale)) = F_r i) ∧
    (∀ r, r < nc → (∑ c ∈ Finset.range nf, C_r r c * w.entry c) = 0) := by
  intro s free sliders nf nc K_r F_r C_r scale SM rhs w hnf hnc hsz hexact
  have hscale : 0 < scale := constraintScale_pos env s free
  refine ⟨?_, hscale, ?_, ?_⟩
  · unfold solve_lagrange_multipliers
    rw [if_neg hnf, if_neg hnc, if_neg (not_ne_iff.mpr hsz)]
  · intro i hi
    have h := hexact i (by omega)
    unfold mulVec at h ⊢
    rw [Finset.sum_range_add] at h
    have h1 : ∀ m ∈ Finset.range nf, SM i m * w.entry m = K_r i m * w.entry m := by
      intro m hm
      rw [Finset.mem_range] at hm
      show saddleMat K_r (scaledC env s sliders free) nf nc i m * w.entry m = _
      rw [saddleMat_apply, if_pos ⟨hi, hm⟩]
    have h2 : ∀ r ∈ Finset.range nc,
        SM i (nf + r) * w.entry (nf + r) = C_r r i * (w.entry (nf + r) * scale) := by
      intro r hr
      rw [Finset.mem_range] at hr
      show saddleMat K_r (scaledC env s sliders free) nf nc i (nf + r) * w.entry (nf + r) = _
      rw [saddleMat_apply, if_neg (by omega), if_pos ⟨hi, by omega, by omega⟩,
        scaledC_apply]
      have hr2 : nf + r - nf = r := by omega
      rw [hr2]
      ring
    rw [Finset.sum_congr rfl h1, Finset.sum_congr rfl h2] at h
    rw [h, saddleRhs_entry, if_pos hi]
  · intro r hr
    have h := hexact (nf + r) (by omega)
    unfold mulVec at h
    rw [Finset.sum_range_add] at h
    have h1 : ∀ m ∈ Finset.range nf,
        SM (nf + r) m * w.entry m = scale * (C_r r m * w.entry m) := by
      intro m hm
      rw [Finset.mem_range] at hm
      show saddleMat K_r (scaledC env s sliders free) nf nc (nf + r) m * w.entry m = _
      rw [saddleMat_apply, if_neg (by omega), if_neg (by omega),
        if_pos ⟨by omega, by omega, hm⟩, scaledC_apply]
      have hr2 : nf + r - nf = r := by omega
      rw [hr2]
      ring
    have h2 : ∀ m ∈ Finset.range nc,
        SM (nf + r) (nf + m) * w.entry (nf + m) = 0 := by
      intro m hm
      rw [Finset.mem_range] at hm
      show saddleMat K_r (scaledC env s sliders free) nf nc (nf + r) (nf + m) * w.entry (nf + m) = _
      rw [saddleMat_apply, if_neg (by omega), if_neg (by omega), if_neg (by omega)]
      ring
    rw [Finset.sum_congr rfl h1, Finset.sum_congr rfl h2, Finset.sum_const_zero,
      add_zero, ← Finset.mul_sum, saddleRhs_entry, if_neg (by omega)] at h
    rcases mul_eq_zero.mp h with hcontra | hok
    · exact absurd hcontra (ne_of_gt hscale)
    · exact hok

/-! Concrete evaluation of model B's reduced and augmented systems. -/

lemma mbB_nodes : (sysAssembled envB sysB).nodes = nodesB := sysAssembled_nodes envB sysB

lemma mbB_free : free_dof_indices (sysAssembled envB sysB).nodes = [3, 4, 5] := by
  rw [mbB_nodes]
  norm_num [free_dof_indices, nodesB, List.range_succ]

lemma mbB_sliders : slider_nodes (sysAssembled envB sysB).nodes = [1] := by
  rw [mbB_nodes]
  norm_num [slider_nodes, nodesB, List.range_succ]

lemma mbB_cs : compute_stiffness envB nodesB [steelB] [rodB] (mkBeam 0 1 0 0 true) =
    { mkBeam 0 1 0 0 true with k := 4, k_matrix := globalElem 4 0 0 0 1 0 } := by
  norm_num [compute_stiffness, nodesB, mkBeam, steelB, rodB, envB]

lemma mbB_beams : (sysAssembled envB sysB).beams =
    [{ mkBeam 0 1 0 0 true with k := 4, k_matrix := globalElem 4 0 0 0 1 0 }] := by
  rw [sysAssembled_beams]
  show [compute_stiffness envB nodesB [steelB] [rodB] (mkBeam 0 1 0 0 true)] = _
  rw [mbB_cs]

lemma mbB_global : ∀ r c, 3 ≤ r → r < 6 → 3 ≤ c → c < 6 →
    (sysAssembled envB sysB).global_k_matrix r c = (if r = 3 ∧ c = 3 then 4 else 0) := by
  intro r c hr3 hr6 hc3 hc6
  rw [sysAssembled_global, mbB_beams]
  simp only [assembleGlobal, List.map_cons, List.map_nil, List.sum_cons, List.sum_nil, add_zero]
  unfold elemContrib
  interval_cases r <;> interval_cases c <;>
    norm_num [dofArray, mkBeam, Finset.sum_range_succ, globalElem, matMul, transposeM,
      Tmat, kPrime]

lemma mbB_Kr : ∀ i j, i < 3 → j < 3 →
    reducedK (sysAssembled envB sysB).global_k_matrix [3, 4, 5] i j =
      (if i = 0 ∧ j = 0 then 4 else 0) := by
  intro i j hi hj
  unfold reducedK
  interval_cases i <;> interval_cases j <;>
    simp [mbB_global 3 3, mbB_global 3 4, mbB_global 3 5, mbB_global 4 3, mbB_global 4 4,
      mbB_global 4 5, mbB_global 5 3, mbB_global 5 4, mbB_global 5 5]

lemma mbB_scale : constraintScale envB (sysAssembled envB sysB) [3, 4, 5] = 4 := by
  unfold constraintScale frobNorm
  norm_num [mbB_Kr, Finset.sum_range_succ]
  show (if (0 : ℚ) < ratSqrt 16 then ratSqrt 16 else 1) = 4
  norm_num

lemma mbB_Cr : ∀ c, c < 3 →
    constraintMatrix envB (sysAssembled envB sysB).nodes [1] [3, 4, 5] 0 c =
      (if c = 0 then 1 else 0) := by
  intro c hc
  rw [mbB_nodes]
  unfold constraintMatrix
  interval_cases c <;>
    norm_num [generate_constraint_row, nodesB, envB, List.range_succ]

lemma mbB_forces : (sysAssembled envB sysB).forces = sysB.forces :=
  sysAssembled_forces envB sysB rfl

lemma mbB_Fr : ∀ i, i < 3 →
    reducedF (sysAssembled envB sysB).forces [3, 4, 5] i = (if i = 0 then 8 else 0) := by
  intro i hi
  unfold reducedF
  rw [mbB_forces]
  interval_cases i <;> norm_num [sysB]

lemma mbB_exact : ∀ i, i <
      (free_dof_indices (sysAssembled envB sysB).nodes).length +
      (slider_nodes (sysAssembled envB sysB).nodes).length →
    mulVec ((free_dof_indices (sysAssembled envB sysB).nodes).length +
        (slider_nodes (sysAssembled envB sysB).nodes).length)
      (saddleMat
        (reducedK (sysAssembled envB sysB).global_k_matrix
          (free_dof_indices (sysAssembled envB sysB).nodes))
        (scaledC envB (sysAssembled envB sysB) (slider_nodes (sysAssembled envB sysB).nodes)
          (free_dof_indices (sysAssembled envB sysB).nodes))
        (free_dof_indices (sysAssembled envB sysB).nodes).length
        (slider_nodes (sysAssembled envB sysB).nodes).length)
      (saddleSolverB
        ((free_dof_indices (sysAssembled envB sysB).nodes).length +
          (slider_nodes (sysAssembled envB sysB).nodes).length)
        (saddleMat
          (reducedK (sysAssembled envB sysB).global_k_matrix
            (free_dof_indices (sysAssembled envB sysB).nodes))
          (scaledC envB (sysAssembled envB sysB) (slider_nodes (sysAssembled envB sysB).nodes)
            (free_dof_indices (sysAssembled envB sysB).nodes))
          (free_dof_indices (sysAssembled envB sysB).nodes).length
          (slider_nodes (sysAssembled envB sysB).nodes).length)
        (saddleRhs
          (reducedF (sysAssembled envB sysB).forces
            (free_dof_indices (sysAssembled envB sysB).nodes))
          (free_dof_indices (sysAssembled envB sysB).nodes).length
          (slider_nodes (sysAssembled envB sysB).nodes).length)).entry i =
    (saddleRhs
      (reducedF (sysAssembled envB sysB).forces (free_dof_indices (sysAssembled envB sysB).nodes))
      (free_dof_indices (sysAssembled envB sysB).nodes).length
      (slider_nodes (sysAssembled envB sysB).nodes).length).entry i := by
  simp only [mbB_free, mbB_sliders]
  intro i hi
  norm_num at hi
  interval_cases i <;>
    norm_num [mulVec, Finset.sum_range_succ, saddleMat_apply, saddleRhs_entry, scaledC_apply,
      saddleSolverB, mbB_Kr, mbB_Cr, mbB_scale, mbB_Fr]

/-- Witness for the amended C2: model B under envB with the exact
saddle solution (0, 0, 0, 2): the physical KKT stationarity equation at
the first free DOF holds with the multipliers recovered by
multiplication with the scale factor 4. -/
theorem C2_multiplier_unscaling_witness :
    mulVec (free_dof_indices (sysAssembled envB sysB).nodes).length
      (reducedK (sysAssembled envB sysB).global_k_matrix
        (free_dof_indices (sysAssembled envB sysB).nodes))
      (saddleSolverB
        ((free_dof_indices (sysAssembled envB sysB).nodes).length +
          (slider_nodes (sysAssembled envB sysB).nodes).length)
        (saddleMat
          (reducedK (sysAssembled envB sysB).global_k_matrix
            (free_dof_indices (sysAssembled envB sysB).nodes))
          (scaledC envB (sysAssembled envB sysB) (slider_nodes (sysAssembled envB sysB).nodes)
            (free_dof_indices (sysAssembled envB sysB).nodes))
          (free_dof_indices (sysAssembled envB sysB).nodes).length
          (slider_nodes (sysAssembled envB sysB).nodes).length)
        (saddleRhs
          (reducedF (sysAssembled envB sysB).forces
            (free_dof_indices (sysAssembled envB sysB).nodes))
          (free_dof_indices (sysAssembled envB sysB).nodes).length
          (slider_nodes (sysAssembled envB sysB).nodes).length)).entry 0 +
    (∑ r ∈ Finset.range (slider_nodes (sysAssembled envB sysB).nodes).length,
      constraintMatrix envB (sysAssembled envB sysB).nodes
          (slider_nodes (sysAssembled envB sysB).nodes)
          (free_dof_indices (sysAssembled envB sysB).nodes) r 0 *
        ((saddleSolverB
            ((free_dof_indices (sysAssembled envB sysB).nodes).length +
              (slider_nodes (sysAssembled envB sysB).nodes).length)
            (saddleMat
              (reducedK (sysAssembled envB sysB).global_k_matrix
                (free_dof_indices (sysAssembled envB sysB).nodes))
              (scaledC envB (sysAssembled envB sysB)
                (slider_nodes (sysAssembled envB sysB).nodes)
                (free_dof_indices (sysAssembled envB sysB).nodes))
              (free_dof_indices (sysAssembled envB sysB).nodes).length
              (slider_nodes (sysAssembled envB sysB).nodes).length)
            (saddleRhs
              (reducedF (sysAssembled envB sysB).forces
                (free_dof_indices (sysAssembled envB sysB).nodes))
              (free_dof_indices (sysAssembled envB sysB).nodes).length
              (slider_nodes (sysAssembled envB sysB).nodes).length)).entry
            ((free_dof_indices (sysAssembled envB sysB).nodes).length + r) *
          constraintScale envB (sysAssembled envB sysB)
            (free_dof_indices (sysAssembled envB sysB).nodes))) =
    reducedF (sysAssembled envB sysB).forces (free_dof_indices (sysAssembled envB sysB).nodes) 0 :=
  (C2_multiplier_unscaling envB saddleSolverB sysB
    (by rw [mbB_free]; norm_num)
    (by rw [mbB_sliders]; norm_num)
    rfl
    mbB_exact).2.2.1 0 (by rw [mbB_free]; norm_num)

/-- Claim C2 counterexample: the claim says the multiplier block is
unscaled by DIVIDING it by the constraint scale factor, but the code
multiplies (fem_system.cpp line 240).  On model B the augmented
solution returned by saddleSolverB has multiplier block entry 2 (by
definition of saddleSolverB) and the constraint scale factor is 4; the
program recovers 2 * 4 = 8, whereas the claim's division would give
2 / 4, and 2 / 4 is not 8. -/
theorem C2_counterexample :
    Option.map (fun v : EVec => v.entry 0) (solve_lagrange_multipliers envB saddleSolverB sysB) =
      some 8 ∧
    constraintScale envB (sysAssembled envB sysB) [3, 4, 5] = 4 ∧
    (8 : ℚ) = 2 * 4 ∧
    ¬((2 : ℚ) / 4 = 8) := by
  refine ⟨?_, mbB_scale, by norm_num, by norm_num⟩
  unfold solve_lagrange_multipliers
  simp only [mbB_free, mbB_sliders]
  norm_num [unscale_multipliers, saddleSolverB, mbB_scale]

/-! Row-sum infrastructure for the equilibrium claim: for any nodal
displacement field, the x and y rows of each element's global stiffness
matrix sum to zero, hence so do the corresponding row blocks of the
assembled matrix. -/

/-- The x and y row pairs of a 6×6 element matrix cancel: rows 0 and 3
sum to zero entrywise, as do rows 1 and 4. -/
def xyRowBalanced (K : Mat) : Prop :=
  ∀ j, j < 6 → (K 0 j + K 3 j = 0) ∧ (K 1 j + K 4 j = 0)

lemma globalElem_xrow (p1 p2 p3 p4 c s : ℚ) (j : ℕ) (hj : j < 6) :
    globalElem p1 p2 p3 p4 c s 0 j + globalElem p1 p2 p3 p4 c s 3 j = 0 := by
  interval_cases j <;>
    (norm_num [globalElem, matMul, transposeM, Tmat, kPrime, Finset.sum_range_succ]
     try ring)

lemma globalElem_yrow (p1 p2 p3 p4 c s : ℚ) (j : ℕ) (hj : j < 6) :
    globalElem p1 p2 p3 p4 c s 1 j + globalElem p1 p2 p3 p4 c s 4 j = 0 := by
  interval_cases j <;>
    (norm_num [globalElem, matMul, transposeM, Tmat, kPrime, Finset.sum_range_succ]
     try ring)

/-- Every stiffness matrix produced by Beam::compute_stiffness has
cancelling x and y row pairs (translational equilibrium of the element
end forces). -/
lemma compute_stiffness_balanced (env : Env) (nodes : List Node)
    (mats : List MaterialProfile) (shapes : List BeamProfile) (b : Beam) :
    xyRowBalanced ((compute_stiffness env nodes mats shapes b).k_matrix) := by
  simp only [compute_stiffness]
  split
  · intro j hj
    norm_num
  · intro j hj
    exact ⟨globalElem_xrow _ _ _ _ _ _ j hj, globalElem_yrow _ _ _ _ _ _ j hj⟩

/-- Summing a conditional with a pinned column index over the column
range picks out that column. -/
lemma sum_ite_dof (P : Prop) [Decidable P] (d N : ℕ) (x : ℚ) (u : ℕ → ℚ) (hd : d < N) :
    (∑ c ∈ Finset.range N, (if P ∧ d = c then x else 0) * u c) =
      if P then x * u d else 0 := by
  by_cases hP : P
  · simp only [hP, true_and, if_true]
    rw [Finset.sum_congr rfl (fun c _ => by rw [ite_mul, zero_mul])]
    rw [Finset.sum_ite_eq (Finset.range N) d (fun c => x * u c),
      if_pos (Finset.mem_range.mpr hd)]
  · simp [hP]

/-- One beam's contribution to a full row of the matrix-vector product,
collapsed over the column index. -/
lemma inner_collapse (b : Beam) (r N : ℕ) (u : ℕ → ℚ)
    (hd : ∀ a2, a2 < 6 → dofArray b a2 < N) :
    (∑ c ∈ Finset.range N, elemContrib b r c * u c) =
      ∑ a ∈ Finset.range 6, ∑ a2 ∈ Finset.range 6,
        (if dofArray b a = r then b.k_matrix a a2 * u (dofArray b a2) else 0) := by
  unfold elemContrib
  rw [Finset.sum_congr rfl (fun c _ => by
    rw [Finset.sum_mul, Finset.sum_congr rfl (fun a _ => by rw [Finset.sum_mul])])]
  rw [Finset.sum_comm]
  refine Finset.sum_congr rfl (fun a _ => ?_)
  rw [Finset.sum_comm]
  refine Finset.sum_congr rfl (fun a2 ha2 => ?_)
  rw [Finset.mem_range] at ha2
  exact sum_ite_dof (dofArray b a = r) (dofArray b a2) N (b.k_matrix a a2) u (hd a2 ha2)

/-- Summing the row-hit indicator over all node indices: a DOF of the
form m*3 + a (a < 3) lies on the row grid i*3 + comp (comp < 3) exactly
when a = comp, and then for the single node index i = m. -/
lemma sum_hits (n m a comp : ℕ) (y : ℚ) (hm : m < n) (ha : a < 3) (hcomp : comp < 3) :
    (∑ i ∈ Finset.range n, if m * 3 + a = i * 3 + comp then y else 0) =
      if a = comp then y else 0 := by
  by_cases hac : a = comp
  · subst hac
    rw [Finset.sum_congr rfl
      (fun i _ => if_congr (by omega : (m * 3 + a = i * 3 + a) ↔ (m = i)) rfl rfl)]
    rw [Finset.sum_ite_eq (Finset.range n) m (fun _ => y),
      if_pos (Finset.mem_range.mpr hm), if_pos rfl]
  · rw [if_neg hac, Finset.sum_congr rfl (fun i _ => if_neg (by omega))]
    exact Finset.sum_const_zero

/-- The same, phrased on a beam's DOF array: local DOF a hits the comp
row grid exactly when a is comp or comp + 3. -/
lemma sum_hits_dof (b : Beam) (n a comp : ℕ) (y : ℚ)
    (h1 : b.nodes.1 < n) (h2 : b.nodes.2 < n) (ha : a < 6) (hcomp : comp < 3) :
    (∑ i ∈ Finset.range n, if dofArray b a = i * 3 + comp then y else 0) =
      if a = comp ∨ a = comp + 3 then y else 0 := by
  by_cases h3 : a < 3
  · have hda : dofArray b a = b.nodes.1 * 3 + a := by
      unfold dofArray
      rw [if_pos h3]
    rw [hda, sum_hits n b.nodes.1 a comp y h1 h3 hcomp]
    exact if_congr (by omega) rfl rfl
  · have hda : dofArray b a = b.nodes.2 * 3 + (a - 3) := by
      unfold dofArray
      rw [if_neg h3]
    rw [hda, sum_hits n b.nodes.2 (a - 3) comp y h2 (by omega) hcomp]
    exact if_congr (by omega) rfl rfl

/-- A disjunctive indicator splits into two indicators when the two
alternatives cannot both hold. -/
lemma ite_or_split (a comp : ℕ) (x : ℚ) :
    (if a = comp ∨ a = comp + 3 then x else 0) =
      (if a = comp then x else 0) + (if a = comp + 3 then x else 0) := by
  by_cases hP : a = comp <;> by_cases hQ : a = comp + 3 <;> simp [hP, hQ]

/-- One beam's total contribution to the comp-component row sums of the
matrix-vector product reduces to the cancelling pair of its local rows
comp and comp + 3. -/
lemma beam_row_sum (b : Beam) (n comp : ℕ) (u : ℕ → ℚ) (hcomp : comp < 3)
    (h1 : b.nodes.1 < n) (h2 : b.nodes.2 < n) :
    (∑ i ∈ Finset.range n, ∑ c ∈ Finset.range (3 * n), elemContrib b (i * 3 + comp) c * u c) =
      ∑ a2 ∈ Finset.range 6,
        (b.k_matrix comp a2 + b.k_matrix (comp + 3) a2) * u (dofArray b a2) := by
  have hd : ∀ a2, a2 < 6 → dofArray b a2 < 3 * n := by
    intro a2 h
    unfold dofArray
    split <;> omega
  rw [Finset.sum_congr rfl (fun i _ => inner_collapse b (i * 3 + comp) (3 * n) u hd)]
  rw [Finset.sum_comm]
  rw [Finset.sum_congr rfl (fun a _ => Finset.sum_comm)]
  have key : ∀ a ∈ Finset.range 6,
      (∑ a2 ∈ Finset.range 6, ∑ i ∈ Finset.range n,
        (if dofArray b a = i * 3 + comp then b.k_matrix a a2 * u (dofArray b a2) else 0)) =
      ∑ a2 ∈ Finset.range 6,
        ((if a = comp then b.k_matrix a a2 * u (dofArray b a2) else 0) +
         (if a = comp + 3 then b.k_matrix a a2 * u (dofArray b a2) else 0)) := by
    intro a ha
    rw [Finset.mem_range] at ha
    refine Finset.sum_congr rfl (fun a2 _ => ?_)
    rw [sum_hits_dof b n a comp _ h1 h2 ha hcomp, ite_or_split]
  rw [Finset.sum_congr rfl key]
  rw [Finset.sum_congr rfl (fun a _ => Finset.sum_add_distrib)]
  rw [Finset.sum_add_distrib]
  have e1 : (∑ a ∈ Finset.range 6, ∑ a2 ∈ Finset.range 6,
      (if a = comp then b.k_matrix a a2 * u (dofArray b a2) else 0)) =
      ∑ a2 ∈ Finset.range 6, b.k_matrix comp a2 * u (dofArray b a2) := by
    rw [Finset.sum_congr rfl (fun a _ => by
      rw [show (∑ a2 ∈ Finset.range 6,
          (if a = comp then b.k_matrix a a2 * u (dofArray b a2) else 0)) =
        (if a = comp then ∑ a2 ∈ Finset.range 6, b.k_matrix a a2 * u (dofArray b a2) else 0) from by
          by_cases hac : a = comp <;> simp [hac]])]
    rw [Finset.sum_ite_eq' (Finset.range 6) comp
      (fun a => ∑ a2 ∈ Finset.range 6, b.k_matrix a a2 * u (dofArray b a2))]
    rw [if_pos (Finset.mem_range.mpr (by omega))]
  have e2 : (∑ a ∈ Finset.range 6, ∑ a2 ∈ Finset.range 6,
      (if a = comp + 3 then b.k_matrix a a2 * u (dofArray b a2) else 0)) =
      ∑ a2 ∈ Finset.range 6, b.k_matrix (comp + 3) a2 * u (dofArray b a2) := by
    rw [Finset.sum_congr rfl (fun a _ => by
      rw [show (∑ a2 ∈ Finset.range 6,
          (if a = comp + 3 then b.k_matrix a a2 * u (dofArray b a2) else 0)) =
        (if a = comp + 3 then ∑ a2 ∈ Finset.range 6, b.k_matrix a a2 * u (dofArray b a2) else 0) from by
          by_cases hac : a = comp + 3 <;> simp [hac]])]
    rw [Finset.sum_ite_eq' (Finset.range 6) (comp + 3)
      (fun a => ∑ a2 ∈ Finset.range 6, b.k_matrix a a2 * u (dofArray b a2))]
    rw [if_pos (Finset.mem_range.mpr (by omega))]
  rw [e1, e2, ← Finset.sum_add_distrib]
  refine Finset.sum_congr rfl (fun a2 _ => ?_)
  ring

/-- The comp-component row sums of the assembled global stiffness
matrix applied to any displacement field vanish whenever every beam's
local rows comp and comp + 3 cancel. -/
lemma assembled_row_sum (beams : List Beam) (n comp : ℕ) (u : ℕ → ℚ) (hcomp : comp < 3)
    (hvalid : ∀ b ∈ beams, b.nodes.1 < n ∧ b.nodes.2 < n)
    (hbal : ∀ b ∈ beams, ∀ a2, a2 < 6 →
      b.k_matrix comp a2 + b.k_matrix (comp + 3) a2 = 0) :
    (∑ i ∈ Finset.range n, mulVec (3 * n) (assembleGlobal beams) u (i * 3 + comp)) = 0 := by
  induction beams with
  | nil => simp [assembleGlobal, mulVec]
  | cons b bs ih =>
    have hG : ∀ r c, assembleGlobal (b :: bs) r c = elemContrib b r c + assembleGlobal bs r c := by
      intro r c
      simp [assembleGlobal]
    have hsplit : ∀ i, mulVec (3 * n) (assembleGlobal (b :: bs)) u (i * 3 + comp) =
        (∑ c ∈ Finset.range (3 * n), elemContrib b (i * 3 + comp) c * u c) +
        mulVec (3 * n) (assembleGlobal bs) u (i * 3 + comp) := by
      intro i
      unfold mulVec
      rw [Finset.sum_congr rfl (fun c _ => by rw [hG, add_mul])]
      exact Finset.sum_add_distrib
    rw [Finset.sum_congr rfl (fun i _ => hsplit i), Finset.sum_add_distrib]
    rw [ih (fun x hx => hvalid x (List.mem_cons_of_mem b hx))
      (fun x hx => hbal x (List.mem_cons_of_mem b hx)), add_zero]
    rw [beam_row_sum b n comp u hcomp (hvalid b (List.mem_cons_self b bs)).1
      (hvalid b (List.mem_cons_self b bs)).2]
    rw [Finset.sum_congr rfl (fun a2 ha2 => by
      rw [hbal b (List.mem_cons_self b bs) a2 (Finset.mem_range.mp ha2), zero_mul])]
    exact Finset.sum_const_zero

/-- Claim C9 as amended: for every valid solved model, the equilibrium
diagnostic of fem_system.cpp lines 329-350 vanishes exactly in its two
translational components (comp = 0 for Fx, comp = 1 for Fy): when the
global matrix is assembled from the computed element matrices, every
beam references in-range nodes, and the solve is exact at the free
nodes' translational DOFs, the sum of all applied forces plus the
reactions accumulated at constrained nodes is exactly zero.  The
moment component (comp = 2) does NOT vanish in general — see the
counterexample — because the diagnostic sums raw Mz values without
force lever arms. -/
theorem C9_equilibrium_balance (sys : FEMSystem) (comp : ℕ) (hcomp : comp < 2)
    (hdof : sys.total_dof = 3 * sys.nodes.length)
    (hglobal : ∀ r c, sys.global_k_matrix r c = assembleGlobal sys.beams r c)
    (hvalid : ∀ b ∈ sys.beams, b.nodes.1 < sys.nodes.length ∧ b.nodes.2 < sys.nodes.length)
    (hbal : ∀ b ∈ sys.beams, xyRowBalanced b.k_matrix)
    (hres : ∀ i, i < sys.nodes.length →
      isFree (sys.nodes.getD i default).constraint_type = true →
      mulVec sys.total_dof sys.global_k_matrix sys.displacement.entry (i * 3 + comp) =
        sys.forces.entry (i * 3 + comp)) :
    balance sys comp = 0 := by
  unfold balance totalApplied totalReaction reactionsVec
  rw [← Finset.sum_add_distrib]
  have step1 : ∀ i ∈ Finset.range sys.nodes.length,
      (sys.forces.entry (i * 3 + comp) +
        (if isFree (sys.nodes.getD i default).constraint_type then 0
         else mulVec sys.total_dof sys.global_k_matrix sys.displacement.entry (i * 3 + comp) -
           sys.forces.entry (i * 3 + comp))) =
      mulVec sys.total_dof sys.global_k_matrix sys.displacement.entry (i * 3 + comp) := by
    intro i hi
    rw [Finset.mem_range] at hi
    by_cases hf : isFree (sys.nodes.getD i default).constraint_type = true
    · rw [if_pos hf, add_zero, hres i hi hf]
    · rw [if_neg (by simpa using hf)]
      ring
  rw [Finset.sum_congr rfl step1]
  have step2 : ∀ i ∈ Finset.range sys.nodes.length,
      mulVec sys.total_dof sys.global_k_matrix sys.displacement.entry (i * 3 + comp) =
      mulVec (3 * sys.nodes.length) (assembleGlobal sys.beams) sys.displacement.entry
        (i * 3 + comp) := by
    intro i _
    unfold mulVec
    rw [hdof]
    exact Finset.sum_congr rfl (fun m _ => by rw [hglobal])
  rw [Finset.sum_congr rfl step2]
  refine assembled_row_sum sys.beams sys.nodes.length comp sys.displacement.entry
    (by omega) hvalid (fun b hb a2 ha2 => ?_)
  interval_cases comp
  · exact (hbal b hb a2 ha2).1
  · exact (hbal b hb a2 ha2).2

/-! Concrete evaluation of model C (the cantilever). -/

lemma applyDisplacement_total_dof (sys : FEMSystem) (free : List ℕ) (u : EVec) :
    (applyDisplacement sys free u).total_dof = sys.total_dof := rfl

lemma applyDisplacement_global (sys : FEMSystem) (free : List ℕ) (u : EVec) :
    (applyDisplacement sys free u).global_k_matrix = sys.global_k_matrix := rfl

lemma applyDisplacement_forces (sys : FEMSystem) (free : List ℕ) (u : EVec) :
    (applyDisplacement sys free u).forces = sys.forces := rfl

lemma applyDisplacement_nodes (sys : FEMSystem) (free : List ℕ) (u : EVec) :
    (applyDisplacement sys free u).nodes = sys.nodes := rfl

lemma reactionsVec_postprocess (env : Env) (sys : FEMSystem) (d : ℕ) :
    reactionsVec (postprocess env sys) d = reactionsVec sys d := rfl

lemma compute_stiffness_nodes (env : Env) (nodes : List Node)
    (mats : List MaterialProfile) (shapes : List BeamProfile) (b : Beam) :
    (compute_stiffness env nodes mats shapes b).nodes = b.nodes := by
  unfold compute_stiffness
  split <;> (dsimp only; split <;> rfl)

lemma mbC_nodes : (sysAssembled env0 sysC).nodes = nodesC := sysAssembled_nodes env0 sysC

lemma mbC_free : free_dof_indices (sysAssembled env0 sysC).nodes = [3, 4, 5] := by
  rw [mbC_nodes]
  norm_num [free_dof_indices, nodesC, List.range_succ]

lemma mbC_sliders : slider_nodes (sysAssembled env0 sysC).nodes = [] := by
  rw [mbC_nodes]
  norm_num [slider_nodes, nodesC, List.range_succ]

set_option maxHeartbeats 1000000 in
lemma mbC_cs : compute_stiffness env0 nodesC [steelC] [barC] (mkBeam 0 1 0 0 false) = beamCk := by
  norm_num [compute_stiffness, nodesC, mkBeam, steelC, barC, env0, beamCk]

lemma mbC_beams : (sysAssembled env0 sysC).beams = [beamCk] := by
  rw [sysAssembled_beams]
  show [compute_stiffness env0 nodesC [steelC] [barC] (mkBeam 0 1 0 0 false)] = _
  rw [mbC_cs]

set_option maxHeartbeats 2000000 in
lemma mbC_globalK : ∀ r c, r < 6 → 4 ≤ c → c < 6 →
    assembleGlobal [beamCk] r c = kPrime 1 1 1 1 r c := by
  intro r c hr hc4 hc
  simp only [assembleGlobal, List.map_cons, List.map_nil, List.sum_cons, List.sum_nil, add_zero]
  unfold elemContrib
  interval_cases r <;> interval_cases c <;>
    norm_num [dofArray, beamCk, mkBeam, Finset.sum_range_succ, globalElem, matMul,
      transposeM, Tmat, kPrime]

lemma mbC_globalS : ∀ r c, r < 6 → 4 ≤ c → c < 6 →
    (sysAssembled env0 sysC).global_k_matrix r c = kPrime 1 1 1 1 r c := by
  intro r c hr hc4 hc
  rw [sysAssembled_global, mbC_beams]
  exact mbC_globalK r c hr hc4 hc

lemma mbC_total : (sysAssembled env0 sysC).total_dof = 6 := by
  unfold sysAssembled computeAllStiffness
  rw [updateSizes_id env0 sysC rfl]
  rfl

lemma mbC_forces : (sysAssembled env0 sysC).forces = sysC.forces :=
  sysAssembled_forces env0 sysC rfl

lemma mbC_solve : solve_system env0 cantSolver sysC = (0, postprocess env0 sysCafter) := by
  simp only [solve_system]
  rw [if_neg (by rw [mbC_free]; norm_num), if_pos (by rw [mbC_sliders]; rfl)]
  simp only [mbC_free]
  rfl

set_option maxHeartbeats 1000000 in
lemma mbC_disp : ∀ m, sysCafter.displacement.entry m =
    (if m = 4 then -2 else if m = 5 then -3 else 0) := by
  intro m
  show ((List.range 3).foldl
      (fun acc i => fun d =>
        if d = ([3, 4, 5] : List ℕ).getD i 0 then
          (cantSolver 3 (reducedK (sysAssembled env0 sysC).global_k_matrix [3, 4, 5])
            ⟨3, reducedF (sysAssembled env0 sysC).forces [3, 4, 5]⟩).entry i
        else acc d)
      (fun _ => 0)) m = _
  norm_num [List.range_succ, cantSolver]
  by_cases h5 : m = 5
  · norm_num [h5]
  · by_cases h4 : m = 4 <;> by_cases h3 : m = 3 <;> norm_num [h3, h4, h5]

lemma sysCafter_total : sysCafter.total_dof = 6 := by
  show (applyDisplacement _ _ _).total_dof = 6
  rw [applyDisplacement_total_dof]
  exact mbC_total

lemma sysCafter_global : sysCafter.global_k_matrix = (sysAssembled env0 sysC).global_k_matrix := rfl

lemma sysCafter_forces : sysCafter.forces = sysC.forces := by
  show (applyDisplacement _ _ _).forces = _
  rw [applyDisplacement_forces]
  exact mbC_forces

lemma sysC_forces_entry : ∀ d, sysC.forces.entry d = (if d = 4 then -6 else 0) :=
  fun _ => rfl

set_option maxHeartbeats 2000000 in
lemma mbC_react : ∀ d, d < 6 → reactionsVec sysCafter d =
    (if d = 1 then 6 else if d = 2 then 6 else 0) := by
  intro d hd
  unfold reactionsVec mulVec
  rw [sysCafter_total, sysCafter_global, sysCafter_forces]
  interval_cases d <;>
    (rw [Finset.sum_range_succ, Finset.sum_range_succ, Finset.sum_range_succ,
      Finset.sum_range_succ, Finset.sum_range_succ, Finset.sum_range_succ,
      Finset.sum_range_zero]
     norm_num [mbC_disp, mbC_globalS 0 4, mbC_globalS 0 5, mbC_globalS 1 4, mbC_globalS 1 5,
       mbC_globalS 2 4, mbC_globalS 2 5, mbC_globalS 3 4, mbC_globalS 3 5,
       mbC_globalS 4 4, mbC_globalS 4 5, mbC_globalS 5 4, mbC_globalS 5 5,
       kPrime, sysC_forces_entry])

lemma sysCafter_nodes : sysCafter.nodes = nodesC := by
  show (applyDisplacement _ _ _).nodes = _
  rw [applyDisplacement_nodes]
  exact mbC_nodes

/-- Claim C9 counterexample: the cantilever of model C (Fixed node at
the origin, Free node at (1, 0), tip load Fy = -6) solved exactly
(status 0, zero residual at all three free DOFs).  The x and y balances
vanish but the printed moment balance equals 6 (= tip load magnitude
times lever arm), not approximately 0 as the claim asserts for every
valid model: the diagnostic sums raw Mz reaction components without
the lever-arm contributions of the reaction forces. -/
theorem C9_counterexample :
    (solve_system env0 cantSolver sysC).1 = 0 ∧
    reactionsVec (solve_system env0 cantSolver sysC).2 3 = 0 ∧
    reactionsVec (solve_system env0 cantSolver sysC).2 4 = 0 ∧
    reactionsVec (solve_system env0 cantSolver sysC).2 5 = 0 ∧
    balance (solve_system env0 cantSolver sysC).2 0 = 0 ∧
    balance (solve_system env0 cantSolver sysC).2 1 = 0 ∧
    balance (solve_system env0 cantSolver sysC).2 2 = 6 := by
  rw [mbC_solve]
  dsimp only
  refine ⟨rfl, ?_, ?_, ?_, ?_, ?_, ?_⟩
  · rw [reactionsVec_postprocess, mbC_react 3 (by norm_num)]
    norm_num
  · rw [reactionsVec_postprocess, mbC_react 4 (by norm_num)]
    norm_num
  · rw [reactionsVec_postprocess, mbC_react 5 (by norm_num)]
    norm_num
  · rw [balance_postprocess]
    unfold balance totalApplied totalReaction
    rw [sysCafter_nodes, sysCafter_forces]
    norm_num [Finset.sum_range_succ, nodesC, sysC_forces_entry, mbC_react]
  · rw [balance_postprocess]
    unfold balance totalApplied totalReaction
    rw [sysCafter_nodes, sysCafter_forces]
    norm_num [Finset.sum_range_succ, nodesC, sysC_forces_entry, mbC_react]
  · rw [balance_postprocess]
    unfold balance totalApplied totalReaction
    rw [sysCafter_nodes, sysCafter_forces]
    norm_num [Finset.sum_range_succ, nodesC, sysC_forces_entry, mbC_react]

/-- Witness for the amended C9: the hand-built exactly-solved
cantilever state sysW satisfies every hypothesis of the equilibrium
theorem for the Fy component, so its Fy balance is exactly zero. -/
theorem C9_equilibrium_balance_witness : balance sysW 1 = 0 :=
  C9_equilibrium_balance sysW 1 (by norm_num)
    (by norm_num [sysW, nodesC])
    (fun r c => rfl)
    (by
      intro b hb
      simp only [sysW, List.mem_singleton] at hb
      subst hb
      norm_num [beamCk, mkBeam, sysW, nodesC])
    (by
      intro b hb
      simp only [sysW, List.mem_singleton] at hb
      subst hb
      intro j hj
      exact ⟨globalElem_xrow 1 1 1 1 1 0 j hj, globalElem_yrow 1 1 1 1 1 0 j hj⟩)
    (by
      intro i hi hf
      have hi2 : i < 2 := by
        simpa [sysW, nodesC] using hi
      interval_cases i
      · exfalso
        revert hf
        norm_num [sysW, nodesC, isFree]
      · unfold mulVec
        show (∑ m ∈ Finset.range sysW.total_dof,
          sysW.global_k_matrix (1 * 3 + 1) m * sysW.displacement.entry m) = _
        norm_num [sysW, Finset.sum_range_succ, mbC_globalK 4 4, mbC_globalK 4 5, kPrime])

end FastFEM
